import Mathlib

/-!
Verification of the Paper Aggregation & Statistics Pipeline
(`rs-academic-paper-interpreter`).

The Rust sources are shallowly embedded:

* machine integers: `i32`/`usize` values are modeled as `Int`/`Nat`; the
  `as i32` narrowing from an unsigned API count is modeled by `toI32`,
  which wraps modulo `2^32` exactly like the Rust cast;
* heap strings are plain `String`s; where Rust slices a string by *byte*
  index (`&s[..500]`) we compute UTF-8 byte counts over the character
  list, and the out-of-boundary panic is modeled as `Option.none`;
* `chrono` dates are abstracted to the only observation the embedded code
  makes of them (the `%Y` year rendering): a `DateTime<Local>` value is an
  `Int`, and the external `chrono` parsing (`datetime_from_str` in
  `shared/utils.rs`) and the ambient clock (`Local::now()`) are supplied
  by a `ChronoEnv` environment;
* every external collaborator call (arXiv query, Semantic Scholar query,
  PDF extraction, LLM provider, environment variables) is a suspension
  point whose outcome is supplied by an `Oracles` record, and each
  source-adapter network access is logged as a `NetEvent` so that
  "no network request was issued" is a statement about the event trace;
* `f64` similarity scores (`strsim::normalized_levenshtein`) are modeled
  exactly over `ℚ`;
* `std::collections::HashMap` contents are modeled as association lists
  in first-insertion order; the *iteration* order of a `HashMap`
  (randomized per process by `RandomState`) is an explicit parameter
  wherever the Rust code iterates over one.
-/

/-- Semantics of Rust's `x as i32` applied to an unsigned integer value:
truncate to the low 32 bits and reinterpret as two's complement. -/
def toI32 (n : Nat) : Int :=
  if n % 2 ^ 32 < 2 ^ 31 then ((n % 2 ^ 32 : Nat) : Int)
  else ((n % 2 ^ 32 : Nat) : Int) - 2 ^ 32

/-- Network accesses performed against the external collaborators.
Only the two bibliographic source adapters and the PDF fetch appear;
nothing else in the embedded fragment touches the network. -/
inductive NetEvent where
  | arxivNet : NetEvent
  | ssNet : NetEvent
  | pdfNet : NetEvent
deriving DecidableEq, Repr

/-- The ambient `chrono` environment: `now` is `Local::now()` and
`fromStr` is `shared::utils::datetime_from_str`, both abstracted to the
year-granular instant model described in the header. -/
structure ChronoEnv where
  now : Int
  fromStr : String → Int

/-- Error type of `shared/errors.rs` (`AppError`); the `#[from]` wrapper
variants for foreign library errors are not constructed by the embedded
fragment and are omitted. -/
inductive AppError where
  | InternalAppError (msg : String)
  | ArxivError (msg : String)
  | SemanticScholarError (msg : String)
  | LlmError (msg : String)
  | PaperNotFound (msg : String)
  | AnalysisError (msg : String)
  | PdfExtractionError (msg : String)
  | ConfigError (msg : String)
deriving DecidableEq, Repr

namespace AppError

/-- The `thiserror` `#[error(...)]` display strings of `AppError`. -/
def display : AppError → String
  | .InternalAppError s => s
  | .ArxivError s => "arXiv API error: " ++ s
  | .SemanticScholarError s => "Semantic Scholar API error: " ++ s
  | .LlmError s => "LLM error: " ++ s
  | .PaperNotFound s => "Paper not found: " ++ s
  | .AnalysisError s => "Analysis failed: " ++ s
  | .PdfExtractionError s => "PDF extraction failed: " ++ s
  | .ConfigError s => "Configuration error: " ++ s

end AppError

/-- Result alias mirroring `AppResult<T>`. -/
abbrev AppResult (α : Type) := Except AppError α

/-! ## External record shapes (`arxiv_tools::Paper`, `ss_tools` structs) -/

/-- The fields of `arxiv_tools::Paper` read by the embedded code. -/
structure ArxivPaper where
  id : String
  title : String
  abstract_text : String
  authors : List String
  primary_category : String
  categories : List String
  journal_ref : String
  doi : String
  published : String
deriving DecidableEq, Repr

/-- `ss_tools` open-access PDF record: the URL is optional. -/
structure OpenAccessPdf where
  url : Option String
deriving DecidableEq, Repr

/-- `ss_tools` journal record. -/
structure SsJournal where
  name : Option String
deriving DecidableEq, Repr

/-- `ss_tools` citation-styles record. -/
structure CitationStyles where
  bibtex : Option String
deriving DecidableEq, Repr

/-- `ss_tools::structs::Author` fields read by the embedded code. -/
structure SsAuthor where
  author_id : Option String
  name : Option String
  hindex : Option Nat
  affiliations : Option (List String)
  paper_count : Option Nat
  citation_count : Option Nat
deriving DecidableEq, Repr

/-- `ss_tools::structs::Paper` fields read by the embedded code. -/
structure SsPaper where
  paper_id : Option String
  title : Option String
  abstract_text : Option String
  url : Option String
  venue : Option String
  reference_count : Option Nat
  citation_count : Option Nat
  influential_citation_count : Option Nat
  is_open_access : Option Bool
  open_access_pdf : Option OpenAccessPdf
  publication_date : Option String
  journal : Option SsJournal
  citation_styles : Option CitationStyles
  authors : Option (List SsAuthor)
deriving DecidableEq, Repr

/-- An `SsPaper` with every field absent, for building concrete inputs. -/
def SsPaper.empty : SsPaper :=
  ⟨none, none, none, none, none, none, none, none, none, none, none, none,
    none, none⟩

/-! ## Data model (`models.rs`) -/

/-- `models::Author`. -/
structure Author where
  ss_id : String
  name : String
  h_index : Int
  affiliations : List String
  paper_count : Int
  citation_count : Int
deriving DecidableEq, Repr

namespace Author

/-- `Author::from_ss_author`. -/
def from_ss_author (author : SsAuthor) : Author :=
  { ss_id := author.author_id.getD ""
    name := author.name.getD ""
    h_index := toI32 (author.hindex.getD 0)
    affiliations := author.affiliations.getD []
    paper_count := toI32 (author.paper_count.getD 0)
    citation_count := toI32 (author.citation_count.getD 0) }

/-- `Author::from_arxiv_name`. -/
def from_arxiv_name (name : String) : Author :=
  { ss_id := "", name := name, h_index := 0, affiliations := []
    paper_count := 0, citation_count := 0 }

end Author

/-- `models::PaperAnalysis` (LLM output shape). -/
structure PaperAnalysis where
  summary : String
  summary_ja : Option String
  background_and_purpose : String
  methodology : String
  dataset : String
  results : String
  advantages_limitations_and_future_work : String
  key_contributions : List String
  tasks : List String
  analyzed_at : Int
  provider : String
  model : String
deriving DecidableEq, Repr

/-- `PaperAnalysis::is_complete`. -/
def PaperAnalysis.is_complete (a : PaperAnalysis) : Bool :=
  !(a.summary = "") && !(a.methodology = "")

/-- `models::PaperSection`. -/
structure PaperSection where
  index : Int
  title : String
  content : String
deriving DecidableEq, Repr

/-- `models::PaperText` (PDF extraction output shape). -/
structure PaperText where
  plain_text : String
  sections : List PaperSection
  markdown : String
  extracted_at : Int
  source_url : String
deriving DecidableEq, Repr

/-- `PaperText::is_valid`. -/
def PaperText.is_valid (t : PaperText) : Bool :=
  !(t.plain_text = "") && !(t.sections = [])

/-- `models::AcademicPaper`. The two `#[serde(skip)]` source copies are
kept because the `ss_id()`/`arxiv_id()` accessors consult them. -/
structure AcademicPaper where
  arxiv_paper : Option ArxivPaper
  ss_paper : Option SsPaper
  ss_id : String
  arxiv_id : String
  doi : String
  title : String
  authors : List Author
  abstract_text : String
  abstract_text_ja : String
  text : String
  url : String
  journal : String
  primary_category : String
  categories : List String
  published_date : Int
  bibtex : String
  citations_count : Int
  references_count : Int
  influential_citation_count : Int
  is_open_access : Bool
  open_access_pdf_url : Option String
  analysis : Option PaperAnalysis
  extracted_text : Option PaperText
  created_at : Int
  updated_at : Int
deriving DecidableEq, Repr

namespace AcademicPaper

/-- `Default::default()` for `AcademicPaper` (all fields empty/zero). -/
def defaultPaper : AcademicPaper :=
  { arxiv_paper := none, ss_paper := none, ss_id := "", arxiv_id := ""
    doi := "", title := "", authors := [], abstract_text := ""
    abstract_text_ja := "", text := "", url := "", journal := ""
    primary_category := "", categories := [], published_date := 0
    bibtex := "", citations_count := 0, references_count := 0
    influential_citation_count := 0, is_open_access := false
    open_access_pdf_url := none, analysis := none, extracted_text := none
    created_at := 0, updated_at := 0 }

instance : Inhabited AcademicPaper := ⟨defaultPaper⟩

/-- `AcademicPaper::new` (empty paper with fresh timestamps). -/
def new (env : ChronoEnv) : AcademicPaper :=
  { defaultPaper with created_at := env.now, updated_at := env.now }

/-- Rust `str::trim_start_matches`: repeatedly strip the (non-empty)
prefix, implemented with an explicit fuel equal to the string length so
that it reduces definitionally. -/
def trimStartAux (pat : String) : Nat → String → String
  | 0, s => s
  | Nat.succ fuel, s =>
    if pat ≠ "" ∧ pat.isPrefixOf s then trimStartAux pat fuel (s.drop pat.length)
    else s

/-- Rust `str::trim_start_matches`. -/
def trimStartMatches (s pat : String) : String :=
  trimStartAux pat s.length s

/-- Index (in characters) of the last `'v'` in a character list.
Because `'v'` is ASCII, the byte position Rust's `rfind` returns always
denotes a character boundary, so the character index is equivalent. -/
def rfindV (cs : List Char) : Option Nat :=
  match cs.reverse.findIdx? (fun c => c = 'v') with
  | some j => some (cs.length - 1 - j)
  | none => none

/-- `AcademicPaper::extract_arxiv_id`. -/
def extract_arxiv_id (raw_id : String) : String :=
  let id := (trimStartMatches
      (trimStartMatches raw_id "http://arxiv.org/abs/")
      "https://arxiv.org/abs/").trim
  match rfindV id.data with
  | some pos =>
    if ((id.data.drop (pos + 1)).all (fun c => c.isDigit)) then
      String.mk (id.data.take pos)
    else id
  | none => id

/-- `AcademicPaper::from_arxiv`. -/
def from_arxiv (env : ChronoEnv) (paper : ArxivPaper) : AcademicPaper :=
  let published_date := env.fromStr paper.published
  let authors := paper.authors.map Author.from_arxiv_name
  let arxiv_id := extract_arxiv_id paper.id
  { defaultPaper with
    arxiv_paper := some paper
    arxiv_id := arxiv_id
    title := paper.title
    abstract_text := paper.abstract_text
    authors := authors
    url := "https://arxiv.org/abs/" ++ arxiv_id
    primary_category := paper.primary_category
    categories := paper.categories
    journal := if paper.journal_ref = "" then "arXiv" else paper.journal_ref
    doi := paper.doi
    published_date := published_date
    created_at := env.now
    updated_at := env.now }

/-- `AcademicPaper::from_semantic_scholar`. -/
def from_semantic_scholar (env : ChronoEnv) (paper : SsPaper) : AcademicPaper :=
  let published_date :=
    match paper.publication_date with
    | some d => env.fromStr d
    | none => env.now
  let authors :=
    match paper.authors with
    | some as_ => as_.map Author.from_ss_author
    | none => []
  let oa : Bool × Option String :=
    match paper.open_access_pdf with
    | some pdf => (true, pdf.url)
    | none => (paper.is_open_access.getD false, none)
  let bibtex :=
    match paper.citation_styles with
    | some cs => cs.bibtex.getD ""
    | none => ""
  let journal :=
    match paper.journal with
    | some j =>
      match j.name with
      | some n => n
      | none => paper.venue.getD ""
    | none => paper.venue.getD ""
  { defaultPaper with
    ss_paper := some paper
    ss_id := paper.paper_id.getD ""
    title := paper.title.getD ""
    abstract_text := paper.abstract_text.getD ""
    authors := authors
    url := paper.url.getD ""
    journal := journal
    citations_count := toI32 (paper.citation_count.getD 0)
    references_count := toI32 (paper.reference_count.getD 0)
    influential_citation_count := toI32 (paper.influential_citation_count.getD 0)
    is_open_access := oa.1
    open_access_pdf_url := oa.2
    bibtex := bibtex
    published_date := published_date
    created_at := env.now
    updated_at := env.now }

/-- Update of one primary author from a matching secondary author: the
first primary author whose name equals the secondary author's name gets
its id/h-index/paper-count/citation-count overwritten; later same-named
authors are untouched (`iter_mut().find` stops at the first match). -/
def updateFirstAuthor (ssa : SsAuthor) : List Author → List Author
  | [] => []
  | a :: rest =>
    if a.name = ssa.name.getD "" then
      { a with
        ss_id := ssa.author_id.getD ""
        h_index := toI32 (ssa.hindex.getD 0)
        paper_count := toI32 (ssa.paper_count.getD 0)
        citation_count := toI32 (ssa.citation_count.getD 0) } :: rest
    else a :: updateFirstAuthor ssa rest

/-- `AcademicPaper::enrich_from_semantic_scholar`. -/
def enrich_from_semantic_scholar (env : ChronoEnv) (self : AcademicPaper)
    (paper : SsPaper) : AcademicPaper :=
  let authors :=
    match paper.authors with
    | some ssAuthors => ssAuthors.foldl (fun l ssa => updateFirstAuthor ssa l) self.authors
    | none => self.authors
  let bibtex :=
    if self.bibtex = "" then
      match paper.citation_styles with
      | some cs =>
        match cs.bibtex with
        | some b => b
        | none => self.bibtex
      | none => self.bibtex
    else self.bibtex
  let oa : Bool × Option String :=
    match paper.open_access_pdf with
    | some pdf => (true, pdf.url)
    | none => (self.is_open_access, self.open_access_pdf_url)
  { self with
    ss_paper := some paper
    ss_id := paper.paper_id.getD ""
    citations_count := toI32 (paper.citation_count.getD 0)
    references_count := toI32 (paper.reference_count.getD 0)
    influential_citation_count := toI32 (paper.influential_citation_count.getD 0)
    authors := authors
    bibtex := bibtex
    is_open_access := oa.1
    open_access_pdf_url := oa.2
    updated_at := env.now }

/-- The accessor method `AcademicPaper::ss_id()` (field takes priority,
then the retained Semantic Scholar source record). -/
def ssIdResult (self : AcademicPaper) : AppResult String :=
  if self.ss_id ≠ "" then .ok self.ss_id
  else
    match self.ss_paper with
    | some sp =>
      match sp.paper_id with
      | some pid => .ok pid
      | none => .error (.InternalAppError "Semantic Scholar paper ID is not available.")
    | none => .error (.InternalAppError "Semantic Scholar paper data is not available.")

/-- `AcademicPaper::is_analyzed`. -/
def is_analyzed (self : AcademicPaper) : Bool :=
  match self.analysis with
  | some a => a.is_complete
  | none => false

/-- `AcademicPaper::set_analysis`. -/
def set_analysis (env : ChronoEnv) (self : AcademicPaper)
    (analysis : PaperAnalysis) : AcademicPaper :=
  { self with analysis := some analysis, updated_at := env.now }

/-- `AcademicPaper::has_extracted_text`. -/
def has_extracted_text (self : AcademicPaper) : Bool :=
  match self.extracted_text with
  | some t => t.is_valid
  | none => false

/-- `AcademicPaper::set_extracted_text`. -/
def set_extracted_text (env : ChronoEnv) (self : AcademicPaper)
    (text : PaperText) : AcademicPaper :=
  { self with extracted_text := some text, updated_at := env.now }

end AcademicPaper

/-! ## Title normalization and deduplication (`client/mod.rs`) -/

namespace PaperClient

/-- Accumulator pass of Rust `str::split_whitespace`: words in order,
without empty words. -/
def splitWsAux : List Char → List Char → List (List Char)
  | [], acc => if acc.isEmpty then [] else [acc.reverse]
  | c :: cs, acc =>
    if c.isWhitespace then
      if acc.isEmpty then splitWsAux cs [] else acc.reverse :: splitWsAux cs []
    else splitWsAux cs (c :: acc)

/-- Rust `str::split_whitespace` on a character list. -/
def splitWhitespace (l : List Char) : List (List Char) :=
  splitWsAux l []

/-- `Vec::join(" ")` on word lists. -/
def joinSpace (ws : List (List Char)) : List Char :=
  (List.intersperse [' '] ws).flatten

/-- `PaperClient::normalize_title`: lowercase, keep alphanumeric and
whitespace characters, collapse whitespace runs, trim.  The Unicode
case-mapping and character-class tables of Rust are abstracted to Lean's
`Char.toLower`/`Char.isAlphanum`/`Char.isWhitespace`. -/
def normalize_title (title : String) : String :=
  String.mk (joinSpace (splitWhitespace
    ((title.data.map Char.toLower).filter
      (fun c => c.isAlphanum || c.isWhitespace))))

/-- `PaperClient::titles_match`: plain equality of normalized titles. -/
def titles_match (title1 title2 : String) : Bool :=
  title1 == title2

/-- One iteration of the `deduplicate_papers` loop. -/
def dedupStep (unique_papers : List AcademicPaper) (paper : AcademicPaper) :
    List AcademicPaper :=
  let normalized_title := normalize_title paper.title
  let is_duplicate := unique_papers.any (fun p =>
    titles_match normalized_title (normalize_title p.title))
  if is_duplicate then unique_papers else unique_papers ++ [paper]

/-- `PaperClient::deduplicate_papers`. -/
def deduplicate_papers (papers : List AcademicPaper) : List AcademicPaper :=
  papers.foldl dedupStep []

/-- Specification-side dedup, written from the spec's words: walk the
list keeping a record exactly when its normalized title has not been
seen before ("keeps the first occurrence of each normalized title"). -/
def specKeepFirst (seen : List String) : List AcademicPaper → List AcademicPaper
  | [] => []
  | p :: ps =>
    if normalize_title p.title ∈ seen then specKeepFirst seen ps
    else p :: specKeepFirst (normalize_title p.title :: seen) ps

end PaperClient

namespace PaperClient

lemma specKeepFirst_congr :
    ∀ (l : List AcademicPaper) (seen seen' : List String),
      (∀ t, t ∈ seen ↔ t ∈ seen') →
      specKeepFirst seen l = specKeepFirst seen' l := by
  intro l
  induction l with
  | nil => intro seen seen' _; rfl
  | cons p ps ih =>
    intro seen seen' h
    simp only [specKeepFirst]
    by_cases hp : normalize_title p.title ∈ seen
    · rw [if_pos hp, if_pos ((h _).mp hp)]
      exact ih seen seen' h
    · rw [if_neg hp, if_neg (fun hc => hp ((h _).mpr hc))]
      congr 1
      refine ih _ _ ?_
      intro t
      simp only [List.mem_cons]
      exact or_congr Iff.rfl (h t)

lemma foldl_dedupStep_eq :
    ∀ (l : List AcademicPaper) (acc : List AcademicPaper),
      l.foldl dedupStep acc =
        acc ++ specKeepFirst (acc.map (fun p => normalize_title p.title)) l := by
  intro l
  induction l with
  | nil => intro acc; simp [specKeepFirst]
  | cons p ps ih =>
    intro acc
    have hmem : (acc.any (fun q =>
        titles_match (normalize_title p.title) (normalize_title q.title)) = true) ↔
        normalize_title p.title ∈ acc.map (fun q => normalize_title q.title) := by
      simp only [List.any_eq_true, titles_match, beq_iff_eq, List.mem_map]
      constructor
      · rintro ⟨q, hq, he⟩; exact ⟨q, hq, he.symm⟩
      · rintro ⟨q, hq, he⟩; exact ⟨q, hq, he.symm⟩
    simp only [List.foldl_cons]
    by_cases hdup : normalize_title p.title ∈ acc.map (fun q => normalize_title q.title)
    · have hstep : dedupStep acc p = acc := by
        simp only [dedupStep]
        rw [if_pos (hmem.mpr hdup)]
      rw [hstep, ih acc]
      simp only [specKeepFirst]
      rw [if_pos hdup]
    · have hstep : dedupStep acc p = acc ++ [p] := by
        simp only [dedupStep]
        rw [if_neg (fun hc => hdup (hmem.mp hc))]
      rw [hstep, ih (acc ++ [p])]
      simp only [specKeepFirst]
      rw [if_neg hdup, List.append_assoc, List.singleton_append]
      congr 1
      congr 1
      refine specKeepFirst_congr ps _ _ ?_
      intro t
      simp [List.mem_append, List.mem_cons, or_comm]

lemma deduplicate_eq_specKeepFirst (papers : List AcademicPaper) :
    deduplicate_papers papers = specKeepFirst [] papers := by
  have := foldl_dedupStep_eq papers []
  simpa [deduplicate_papers] using this

lemma specKeepFirst_sublist :
    ∀ (l : List AcademicPaper) (seen : List String),
      (specKeepFirst seen l).Sublist l := by
  intro l
  induction l with
  | nil => intro seen; simp [specKeepFirst]
  | cons p ps ih =>
    intro seen
    simp only [specKeepFirst]
    by_cases hp : normalize_title p.title ∈ seen
    · rw [if_pos hp]
      exact (ih seen).cons p
    · rw [if_neg hp]
      exact (ih _).cons₂ p

lemma specKeepFirst_title_not_seen :
    ∀ (l : List AcademicPaper) (seen : List String) (q : AcademicPaper),
      q ∈ specKeepFirst seen l → normalize_title q.title ∉ seen := by
  intro l
  induction l with
  | nil => intro seen q hq; simp [specKeepFirst] at hq
  | cons p ps ih =>
    intro seen q hq
    simp only [specKeepFirst] at hq
    by_cases hp : normalize_title p.title ∈ seen
    · rw [if_pos hp] at hq
      exact ih seen q hq
    · rw [if_neg hp] at hq
      rcases List.mem_cons.mp hq with rfl | hq'
      · exact hp
      · intro hseen
        exact ih _ q hq' (List.mem_cons_of_mem _ hseen)

lemma specKeepFirst_pairwise :
    ∀ (l : List AcademicPaper) (seen : List String),
      (specKeepFirst seen l).Pairwise
        (fun p q => normalize_title p.title ≠ normalize_title q.title) := by
  intro l
  induction l with
  | nil => intro seen; simp [specKeepFirst]
  | cons p ps ih =>
    intro seen
    simp only [specKeepFirst]
    by_cases hp : normalize_title p.title ∈ seen
    · rw [if_pos hp]; exact ih seen
    · rw [if_neg hp]
      refine List.Pairwise.cons ?_ (ih _)
      intro q hq heq
      exact specKeepFirst_title_not_seen ps _ q hq
        (heq ▸ List.mem_cons_self _ _)

lemma specKeepFirst_mem_iff :
    ∀ (l : List AcademicPaper) (seen : List String) (q : AcademicPaper),
      q ∈ specKeepFirst seen l ↔
        (normalize_title q.title ∉ seen ∧
          l.find? (fun x => normalize_title x.title == normalize_title q.title)
            = some q) := by
  intro l
  induction l with
  | nil => intro seen q; simp [specKeepFirst]
  | cons p ps ih =>
    intro seen q
    simp only [specKeepFirst]
    by_cases heqt : normalize_title p.title = normalize_title q.title
    · have hfind : (p :: ps).find?
          (fun x => normalize_title x.title == normalize_title q.title) = some p := by
        apply List.find?_cons_of_pos
        simp [heqt]
      rw [hfind]
      by_cases hp : normalize_title p.title ∈ seen
      · rw [if_pos hp]
        have hqseen : normalize_title q.title ∈ seen := heqt ▸ hp
        constructor
        · intro hq
          exact absurd hqseen (specKeepFirst_title_not_seen ps seen q hq)
        · rintro ⟨hns, _⟩
          exact absurd hqseen hns
      · rw [if_neg hp]
        constructor
        · intro hq
          rcases List.mem_cons.mp hq with rfl | hq'
          · exact ⟨fun hc => hp (heqt ▸ hc), rfl⟩
          · have hns := specKeepFirst_title_not_seen ps _ q hq'
            have hin : normalize_title q.title ∈ normalize_title p.title :: seen := by
              rw [← heqt]; exact List.mem_cons_self _ _
            exact absurd hin hns
        · rintro ⟨hns, hpq⟩
          injection hpq with hpq
          rw [← hpq]
          exact List.mem_cons_self _ _
    · have hfind : (p :: ps).find?
          (fun x => normalize_title x.title == normalize_title q.title) =
          ps.find? (fun x => normalize_title x.title == normalize_title q.title) := by
        apply List.find?_cons_of_neg
        simp [heqt]
      rw [hfind]
      by_cases hp : normalize_title p.title ∈ seen
      · rw [if_pos hp]
        exact ih seen q
      · rw [if_neg hp]
        constructor
        · intro hq
          rcases List.mem_cons.mp hq with rfl | hq'
          · exact absurd rfl heqt
          · have h2 := (ih _ q).mp hq'
            exact ⟨fun hc => h2.1 (List.mem_cons_of_mem _ hc), h2.2⟩
        · rintro ⟨hns, hfq⟩
          refine List.mem_cons_of_mem _ ?_
          refine (ih _ q).mpr ⟨?_, hfq⟩
          intro hc
          rcases List.mem_cons.mp hc with hc1 | hc2
          · exact heqt hc1.symm
          · exact hns hc2

end PaperClient

/-- C8: deduplication treats two records as duplicates exactly when their
normalized titles are character-for-character equal, keeps the first
occurrence of each normalized title, preserves relative order (the result
is a sublist of the input), and yields a list in which no two records
share a normalized title. -/
theorem C8_dedup_exact_first_occurrence_order (papers : List AcademicPaper) :
    PaperClient.deduplicate_papers papers = PaperClient.specKeepFirst [] papers
    ∧ (PaperClient.deduplicate_papers papers).Sublist papers
    ∧ (PaperClient.deduplicate_papers papers).Pairwise
        (fun p q => PaperClient.normalize_title p.title ≠ PaperClient.normalize_title q.title)
    ∧ (∀ q : AcademicPaper, q ∈ PaperClient.deduplicate_papers papers ↔
        papers.find? (fun x => PaperClient.normalize_title x.title ==
          PaperClient.normalize_title q.title) = some q)
    ∧ (∀ t1 t2 : String, PaperClient.titles_match t1 t2 = true ↔ t1 = t2) := by
  have heq := PaperClient.deduplicate_eq_specKeepFirst papers
  refine ⟨heq, ?_, ?_, ?_, ?_⟩
  · rw [heq]; exact PaperClient.specKeepFirst_sublist papers []
  · rw [heq]; exact PaperClient.specKeepFirst_pairwise papers []
  · intro q
    rw [heq, PaperClient.specKeepFirst_mem_iff papers [] q]
    simp
  · intro t1 t2
    simp [PaperClient.titles_match]

/-! ## Fuzzy matching (`client/mod.rs`, `strsim::normalized_levenshtein`) -/

/-- Rust `Iterator::min_by`: the fold keeps the accumulator on `Less` or
`Equal` and switches on `Greater`, so the *first* minimal element wins. -/
def rustMinBy {α : Type} (cmp : α → α → Ordering) : List α → Option α
  | [] => none
  | x :: xs => some (xs.foldl (fun acc y => if cmp acc y = .gt then y else acc) x)

namespace strsim

/-- Levenshtein edit distance on character lists (the metric underlying
`strsim::levenshtein`). -/
def levDistance : List Char → List Char → Nat
  | [], b => b.length
  | a :: as_, [] => (a :: as_).length
  | x :: xs, y :: ys =>
    if x = y then levDistance xs ys
    else 1 + min (levDistance xs (y :: ys))
      (min (levDistance (x :: xs) ys) (levDistance xs ys))
termination_by a b => a.length + b.length
decreasing_by all_goals simp_arith

/-- `strsim::normalized_levenshtein`: similarity in `[0,1]`, `1.0` when
both strings are empty; here computed exactly over `ℚ` instead of `f64`. -/
def normalized_levenshtein (a b : List Char) : ℚ :=
  if a.isEmpty ∧ b.isEmpty then 1
  else 1 - (levDistance a b : ℚ) / ((max a.length b.length : Nat) : ℚ)

end strsim

namespace PaperClient

/-- Distance assigned to one candidate inside
`PaperClient::find_best_match_by_title`: `1 - similarity` of the
normalized query and the candidate's normalized title. -/
def titleDistance (normalized_query : String) (p : AcademicPaper) : ℚ :=
  1 - strsim.normalized_levenshtein normalized_query.data
    (normalize_title p.title).data

/-- `PaperClient::find_best_match_by_title`. -/
def find_best_match_by_title (papers : List AcademicPaper) (query : String) :
    Option (Nat × ℚ) :=
  if papers.isEmpty then none
  else
    let normalized_query := normalize_title query
    rustMinBy (fun a b => compare a.2 b.2)
      (papers.enum.map (fun ip => (ip.1, titleDistance normalized_query ip.2)))

/-- Functional form of the `min_by` fold: switch the accumulator exactly
when the candidate's distance is strictly smaller. -/
def firstMin (acc : Nat × ℚ) : List (Nat × ℚ) → Nat × ℚ
  | [] => acc
  | y :: ys => if y.2 < acc.2 then firstMin y ys else firstMin acc ys

lemma foldl_min_eq_firstMin :
    ∀ (l : List (Nat × ℚ)) (acc : Nat × ℚ),
      l.foldl (fun acc y => if compare acc.2 y.2 = .gt then y else acc) acc =
        firstMin acc l := by
  intro l
  induction l with
  | nil => intro acc; rfl
  | cons y ys ih =>
    intro acc
    simp only [List.foldl_cons, firstMin]
    by_cases hlt : y.2 < acc.2
    · rw [if_pos (compare_gt_iff_gt.mpr hlt), if_pos hlt, ih]
    · rw [if_neg (fun hc => hlt (compare_gt_iff_gt.mp hc)), if_neg hlt, ih]

lemma firstMin_spec :
    ∀ (l : List (Nat × ℚ)) (acc : Nat × ℚ),
      l.Pairwise (fun a b => a.1 < b.1) → (∀ y ∈ l, acc.1 < y.1) →
      (firstMin acc l = acc ∨
        (firstMin acc l ∈ l ∧ (firstMin acc l).2 < acc.2)) ∧
      (firstMin acc l).2 ≤ acc.2 ∧
      (∀ y ∈ l, (firstMin acc l).2 ≤ y.2) ∧
      (∀ y ∈ l, y.2 = (firstMin acc l).2 → (firstMin acc l).1 ≤ y.1) := by
  intro l
  induction l with
  | nil =>
    intro acc _ _
    exact ⟨Or.inl rfl, le_refl _, by simp, by simp⟩
  | cons y ys ih =>
    intro acc hpair hacc
    have hpairys := (List.pairwise_cons.mp hpair).2
    have hyys := (List.pairwise_cons.mp hpair).1
    simp only [firstMin]
    by_cases hlt : y.2 < acc.2
    · rw [if_pos hlt]
      obtain ⟨h1, h2, h3, h4⟩ := ih y hpairys hyys
      refine ⟨?_, le_of_lt (lt_of_le_of_lt h2 hlt), ?_, ?_⟩
      · rcases h1 with heq | ⟨hmem, hlt2⟩
        · refine Or.inr ⟨?_, ?_⟩
          · rw [heq]; exact List.mem_cons_self _ _
          · rw [heq]; exact hlt
        · exact Or.inr ⟨List.mem_cons_of_mem _ hmem, lt_trans hlt2 hlt⟩
      · intro z hz
        rcases List.mem_cons.mp hz with rfl | hz'
        · exact h2
        · exact h3 z hz'
      · intro z hz htie
        rcases List.mem_cons.mp hz with rfl | hz'
        · rcases h1 with heq | ⟨_, hlt2⟩
          · rw [heq]
          · rw [← htie] at hlt2
            exact absurd hlt2 (lt_irrefl _)
        · exact h4 z hz' htie
    · rw [if_neg hlt]
      push_neg at hlt
      have haccys : ∀ z ∈ ys, acc.1 < z.1 := fun z hz =>
        hacc z (List.mem_cons_of_mem _ hz)
      obtain ⟨h1, h2, h3, h4⟩ := ih acc hpairys haccys
      refine ⟨?_, h2, ?_, ?_⟩
      · rcases h1 with heq | ⟨hmem, hlt2⟩
        · exact Or.inl heq
        · exact Or.inr ⟨List.mem_cons_of_mem _ hmem, hlt2⟩
      · intro z hz
        rcases List.mem_cons.mp hz with rfl | hz'
        · exact le_trans h2 hlt
        · exact h3 z hz'
      · intro z hz htie
        rcases List.mem_cons.mp hz with rfl | hz'
        · rcases h1 with heq | ⟨_, hlt2⟩
          · rw [heq]
            exact le_of_lt (hacc _ (List.mem_cons_self _ _))
          · have hcontra := lt_of_lt_of_le hlt2 hlt
            rw [← htie] at hcontra
            exact absurd hcontra (lt_irrefl _)
        · exact h4 z hz' htie

lemma enumFrom_mem_iff {α : Type} :
    ∀ (l : List α) (n : Nat) (y : Nat × α),
      y ∈ l.enumFrom n ↔ ∃ k, ∃ hk : k < l.length, y = (n + k, l[k]) := by
  intro l
  induction l with
  | nil => intro n y; simp [List.enumFrom]
  | cons a as_ ih =>
    intro n y
    simp only [List.enumFrom, List.mem_cons, ih, List.length_cons]
    constructor
    · rintro (rfl | ⟨k, hk, rfl⟩)
      · exact ⟨0, Nat.succ_pos _, by simp⟩
      · exact ⟨k + 1, Nat.succ_lt_succ hk, by simp [Nat.add_assoc, Nat.add_comm 1 k]⟩
    · rintro ⟨k, hk, rfl⟩
      cases k with
      | zero => exact Or.inl (by simp)
      | succ k0 =>
        exact Or.inr ⟨k0, Nat.lt_of_succ_lt_succ hk,
          by simp [Nat.add_assoc, Nat.add_comm 1 k0]⟩

lemma enumFrom_fst_lt_pairwise {α : Type} :
    ∀ (l : List α) (n : Nat),
      (l.enumFrom n).Pairwise (fun a b => a.1 < b.1) := by
  intro l
  induction l with
  | nil => intro n; simp [List.enumFrom]
  | cons a as_ ih =>
    intro n
    simp only [List.enumFrom]
    refine List.Pairwise.cons ?_ (ih (n + 1))
    intro y hy
    obtain ⟨k, hk, rfl⟩ := (enumFrom_mem_iff as_ (n + 1) y).mp hy
    simp only
    omega

end PaperClient

namespace PaperClient

lemma mem_distList (nq : String) (papers : List AcademicPaper) (y : Nat × ℚ) :
    y ∈ papers.enum.map (fun ip => (ip.1, titleDistance nq ip.2)) ↔
      ∃ j, ∃ hj : j < papers.length, y = (j, titleDistance nq papers[j]) := by
  rw [show papers.enum = papers.enumFrom 0 from rfl]
  constructor
  · intro hy
    obtain ⟨ip, hip, rfl⟩ := List.mem_map.mp hy
    obtain ⟨k, hk, rfl⟩ := (enumFrom_mem_iff papers 0 ip).mp hip
    exact ⟨k, hk, by simp⟩
  · rintro ⟨j, hj, rfl⟩
    exact List.mem_map.mpr
      ⟨(j, papers[j]), (enumFrom_mem_iff papers 0 _).mpr ⟨j, hj, by simp⟩, rfl⟩

end PaperClient

/-- C7: on a non-empty candidate list, `find_best_match_by_title` returns
an index/distance pair such that the distance (1 minus the normalized
Levenshtein similarity of the normalized strings) is minimal over all
candidates, and every candidate strictly before the returned index has a
strictly larger distance — i.e. ties resolve to the first encountered
candidate. -/
theorem C7_fuzzy_best_match_min_first_tie (papers : List AcademicPaper)
    (query : String) (h : papers ≠ []) :
    ∃ i d, PaperClient.find_best_match_by_title papers query = some (i, d) ∧
      ∃ hi : i < papers.length,
        d = PaperClient.titleDistance (PaperClient.normalize_title query) papers[i]
        ∧ (∀ j, ∀ hj : j < papers.length,
            d ≤ PaperClient.titleDistance (PaperClient.normalize_title query) papers[j])
        ∧ (∀ j, ∀ hj : j < papers.length, j < i →
            d < PaperClient.titleDistance (PaperClient.normalize_title query) papers[j]) := by
  classical
  obtain ⟨p0, rest, rfl⟩ : ∃ p0 rest, papers = p0 :: rest := by
    cases papers with
    | nil => exact absurd rfl h
    | cons p0 rest => exact ⟨p0, rest, rfl⟩
  set nq := PaperClient.normalize_title query with hnq
  set f : AcademicPaper → ℚ := PaperClient.titleDistance nq with hf
  set g : Nat × AcademicPaper → Nat × ℚ := fun ip => (ip.1, f ip.2) with hg
  have hL : (p0 :: rest).enum.map g = (0, f p0) :: (rest.enumFrom 1).map g := by
    rw [List.enum_cons]; rfl
  set xs := (rest.enumFrom 1).map g with hxs
  have hpair : xs.Pairwise (fun a b => a.1 < b.1) := by
    rw [hxs]
    exact List.pairwise_map.mpr (PaperClient.enumFrom_fst_lt_pairwise rest 1)
  have hacc : ∀ y ∈ xs, (0, f p0).1 < y.1 := by
    intro y hy
    rw [hxs] at hy
    obtain ⟨ip, hip, rfl⟩ := List.mem_map.mp hy
    obtain ⟨k, hk, rfl⟩ := (PaperClient.enumFrom_mem_iff rest 1 ip).mp hip
    simp [hg]
  obtain ⟨h1, h2, h3, h4⟩ := PaperClient.firstMin_spec xs (0, f p0) hpair hacc
  set m := PaperClient.firstMin (0, f p0) xs with hm
  have hrun : PaperClient.find_best_match_by_title (p0 :: rest) query =
      some m := by
    simp only [PaperClient.find_best_match_by_title, List.isEmpty_cons,
      Bool.false_eq_true, if_false]
    rw [← hnq, ← hf]
    rw [show ((p0 :: rest).enum.map fun ip => (ip.1, PaperClient.titleDistance nq ip.2))
        = (p0 :: rest).enum.map g from rfl, hL]
    simp only [rustMinBy]
    rw [PaperClient.foldl_min_eq_firstMin]
  -- every index gives a member of the full mapped list
  have hmemAll : ∀ j, ∀ hj : j < (p0 :: rest).length,
      (j, f (p0 :: rest)[j]) ∈ (0, f p0) :: xs := by
    intro j hj
    have : (j, f (p0 :: rest)[j]) ∈ (p0 :: rest).enum.map g :=
      (PaperClient.mem_distList nq (p0 :: rest) _).mpr ⟨j, hj, rfl⟩
    rw [hL] at this
    exact this
  -- the returned element corresponds to a valid index
  have hmval : ∃ hi : m.1 < (p0 :: rest).length, m.2 = f (p0 :: rest)[m.1] := by
    have hmem : m ∈ (p0 :: rest).enum.map g := by
      rw [hL]
      rcases h1 with heq | ⟨hmem, _⟩
      · rw [heq]; exact List.mem_cons_self _ _
      · exact List.mem_cons_of_mem _ hmem
    obtain ⟨j, hj, hjy⟩ := (PaperClient.mem_distList nq (p0 :: rest) m).mp hmem
    have hj1 : m.1 = j := by rw [hjy]
    have hj2 : m.2 = f (p0 :: rest)[j] := by rw [hjy]
    subst hj1
    exact ⟨hj, hj2⟩
  obtain ⟨hi, hdi⟩ := hmval
  refine ⟨m.1, m.2, hrun, hi, hdi, ?_, ?_⟩
  · intro j hj
    have hy := hmemAll j hj
    rcases List.mem_cons.mp hy with hy0 | hyxs
    · have hsnd : f (p0 :: rest)[j] = f p0 := by
        simpa using congrArg Prod.snd hy0
      rw [hsnd]
      exact h2
    · exact h3 _ hyxs
  · intro j hj hji
    have hle : m.2 ≤ f (p0 :: rest)[j] := by
      have hy := hmemAll j hj
      rcases List.mem_cons.mp hy with hy0 | hyxs
      · have hsnd : f (p0 :: rest)[j] = f p0 := by
          simpa using congrArg Prod.snd hy0
        rw [hsnd]; exact h2
      · exact h3 _ hyxs
    rcases lt_or_eq_of_le hle with hlt | heqd
    · exact hlt
    · exfalso
      have hy := hmemAll j hj
      rcases List.mem_cons.mp hy with hy0 | hyxs
      · -- j = 0 and the head is tied with the minimum
        have hj0 : j = 0 := by
          have := congrArg Prod.fst hy0
          simpa using this
        rcases h1 with heq | ⟨_, hlt2⟩
        · have : m.1 = 0 := by rw [heq]
          omega
        · have hfp0 : f (p0 :: rest)[j] = f p0 := by
            simpa using congrArg Prod.snd hy0
          rw [hfp0] at heqd
          rw [← heqd] at hlt2
          exact absurd hlt2 (lt_irrefl _)
      · have := h4 _ hyxs heqd.symm
        simp only at this
        omega

/-- Concrete candidate list used to witness C7. -/
def c7papers : List AcademicPaper :=
  [{ AcademicPaper.defaultPaper with title := "ab" },
   { AcademicPaper.defaultPaper with title := "xy" }]

theorem C7_fuzzy_best_match_min_first_tie_witness :
    c7papers ≠ []
    ∧ (∃ i d, PaperClient.find_best_match_by_title c7papers "ab" = some (i, d) ∧
        ∃ hi : i < c7papers.length,
          d = PaperClient.titleDistance (PaperClient.normalize_title "ab") c7papers[i]
          ∧ (∀ j, ∀ hj : j < c7papers.length,
              d ≤ PaperClient.titleDistance (PaperClient.normalize_title "ab") c7papers[j])
          ∧ (∀ j, ∀ hj : j < c7papers.length, j < i →
              d < PaperClient.titleDistance (PaperClient.normalize_title "ab") c7papers[j])) :=
  ⟨by simp [c7papers], C7_fuzzy_best_match_min_first_tie c7papers "ab" (by simp [c7papers])⟩

/-! ## Search parameters and results (`client/search.rs`) -/

/-- `client::search::PaperSource`. -/
inductive PaperSource where
  | ArXiv : PaperSource
  | SemanticScholar : PaperSource
  | Both : PaperSource
deriving DecidableEq, Repr

/-- `client::search::SearchParams`. -/
structure SearchParams where
  query : Option String
  title : Option String
  author : Option String
  abstract_contains : Option String
  arxiv_id : Option String
  ss_id : Option String
  max_results : Nat
  categories : List String
  min_citations : Option Nat
  year : Option String
deriving DecidableEq, Repr

namespace SearchParams

/-- `SearchParams::new` (the `derive_new` defaults: all filters absent and
`max_results = 10`). -/
def new : SearchParams :=
  ⟨none, none, none, none, none, none, 10, [], none, none⟩

/-- `SearchParams::with_title`. -/
def with_title (p : SearchParams) (t : String) : SearchParams :=
  { p with title := some t }

/-- `SearchParams::with_max_results`. -/
def with_max_results (p : SearchParams) (n : Nat) : SearchParams :=
  { p with max_results := n }

/-- `SearchParams::is_id_lookup`. -/
def is_id_lookup (p : SearchParams) : Bool :=
  p.arxiv_id.isSome || p.ss_id.isSome

/-- `SearchParams::has_search_criteria`. -/
def has_search_criteria (p : SearchParams) : Bool :=
  p.query.isSome || p.title.isSome || p.author.isSome || p.abstract_contains.isSome

end SearchParams

/-- `client::search::SearchResult`. -/
structure SearchResult where
  papers : List AcademicPaper
  sources : List PaperSource
  total_count : Option Nat
deriving DecidableEq, Repr

/-- `SearchResult::new` (`Default`): empty papers/sources, no count. -/
def SearchResult.new : SearchResult := ⟨[], [], none⟩

/-! ## Export-side auxiliary shapes (`export.rs`) needed by the oracles -/

/-- `shared::config::LlmProviderType` (also the image of the CLI
`ProviderArg` under its `From` impl in `main.rs`). -/
inductive LlmProviderType where
  | OpenAi : LlmProviderType
  | Anthropic : LlmProviderType
  | Ollama : LlmProviderType
deriving DecidableEq, Repr

/-- `export::TechnicalTerm`. -/
structure TechnicalTerm where
  term : String
  definition : Option String
deriving DecidableEq, Repr

/-- `export::KeywordsData`. -/
structure KeywordsData where
  keywords : List String
  topics : List String
  technical_terms : List TechnicalTerm
  methods : List String
  datasets : List String
deriving DecidableEq, Repr

/-- `export::ResearchContext`. -/
structure ResearchContext where
  primary_field : String
  sub_fields : List String
  research_type : String
  positioning : String
  related_directions : List String
deriving DecidableEq, Repr

/-! ## The effect oracle -/

/-- Outcomes of every external collaborator call made during one run of
the embedded fragment: network payloads of the two source adapters, the
PDF extractor, the LLM provider construction/calls, environment
variables, the clock, and the `HashMap` iteration order used by the
statistics. One logical call site per field; call sites that are reached
at most once per run read their field directly. -/
structure Oracles where
  chrono : ChronoEnv
  arxivSearchNet : List ArxivPaper
  ssSearchNet : Except String (List SsPaper)
  arxivFetchById : List ArxivPaper
  ssExactTitle : Except String SsPaper
  ssFetchDetails : Except String SsPaper
  pdfExtract : Except AppError PaperText
  ssCitations : Except String (List SsPaper)
  ssReferences : Except String (List SsPaper)
  envLlmProvider : Option String
  fromEnv : LlmProviderType → Except AppError Unit
  analyzeResult : Except AppError PaperAnalysis
  keywordsResult : Except AppError (KeywordsData × ResearchContext)
  venueOrder : List (String × Nat) → List (String × Nat)
  toolVersion : String

/-! ## The arXiv adapter (`client/arxiv.rs`) -/

/-- `arxiv_tools::QueryParams` constructors used by `build_query`. -/
inductive QueryParams where
  | title (s : String)
  | author (s : String)
  | abstractText (s : String)
  | all (s : String)
  | and (qs : List QueryParams)

namespace ArxivClient

/-- `ArxivClient::build_query`: title/author/abstract filters become AND
conditions; with no conditions the free-text query is used; with nothing
at all the adapter fails before any network access. -/
def build_query (params : SearchParams) : AppResult QueryParams :=
  let conditions : List QueryParams :=
    (match params.title with
      | some t => [QueryParams.title t]
      | none => []) ++
    (match params.author with
      | some a => [QueryParams.author a]
      | none => []) ++
    (match params.abstract_contains with
      | some t => [QueryParams.abstractText t]
      | none => [])
  match conditions with
  | [] =>
    match params.query with
    | some q => .ok (.all q)
    | none => .error (.ArxivError "No search criteria provided")
  | [c] => .ok c
  | cs => .ok (.and cs)

/-- `ArxivClient::search`: `build_query` first (no network on failure),
then one network query whose payload the oracle supplies; the external
`arxiv_tools` query itself is infallible (returns a plain `Vec`). -/
def search (params : SearchParams) (net : List ArxivPaper) :
    AppResult (List ArxivPaper) × List NetEvent :=
  match build_query params with
  | .error e => (.error e, [])
  | .ok _query => (.ok net, [.arxivNet])

/-- `ArxivClient::fetch_by_id`: one network query; the first returned
paper, or `PaperNotFound` when the list is empty. -/
def fetch_by_id (arxiv_id : String) (net : List ArxivPaper) :
    AppResult ArxivPaper × List NetEvent :=
  match net with
  | [] => (.error (.PaperNotFound ("arXiv paper not found: " ++ arxiv_id)), [.arxivNet])
  | p :: _ => (.ok p, [.arxivNet])

end ArxivClient

/-! ## The Semantic Scholar adapter (`client/semantic.rs`) -/

namespace SemanticScholarClient

/-- `SemanticScholarClient::build_query_text`: prefer query, then title,
then author; fail before any network access otherwise.  (The abstract
filter is *not* consulted here.) -/
def build_query_text (params : SearchParams) : AppResult String :=
  match params.query with
  | some q => .ok q
  | none =>
    match params.title with
    | some t => .ok t
    | none =>
      match params.author with
      | some a => .ok a
      | none => .error (.SemanticScholarError "No search criteria provided")

/-- `SemanticScholarClient::search`: `build_query_text` first (no network
on failure), then one network query; an upstream error is wrapped as
`SemanticScholarError("Search failed: ...")`. -/
def search (params : SearchParams) (net : Except String (List SsPaper)) :
    AppResult (List SsPaper) × List NetEvent :=
  match build_query_text params with
  | .error e => (.error e, [])
  | .ok _q =>
    match net with
    | .ok papers => (.ok papers, [.ssNet])
    | .error e => (.error (.SemanticScholarError ("Search failed: " ++ e)), [.ssNet])

/-- `SemanticScholarClient::search_exact_title`. -/
def search_exact_title (net : Except String SsPaper) :
    AppResult SsPaper × List NetEvent :=
  match net with
  | .ok paper => (.ok paper, [.ssNet])
  | .error e =>
    (.error (.SemanticScholarError ("Exact title search failed: " ++ e)), [.ssNet])

/-- `SemanticScholarClient::fetch_details`. -/
def fetch_details (net : Except String SsPaper) :
    AppResult SsPaper × List NetEvent :=
  match net with
  | .ok paper => (.ok paper, [.ssNet])
  | .error e =>
    (.error (.SemanticScholarError ("Fetch details failed: " ++ e)), [.ssNet])

/-- `SemanticScholarClient::fetch_citations`; the oracle supplies the
already-extracted edge papers (`response.data` filtered to present
`citing_paper`s). -/
def fetch_citations (net : Except String (List SsPaper)) :
    AppResult (List SsPaper) × List NetEvent :=
  match net with
  | .ok papers => (.ok papers, [.ssNet])
  | .error e =>
    (.error (.SemanticScholarError ("Fetch citations failed: " ++ e)), [.ssNet])

/-- `SemanticScholarClient::fetch_references` (same extraction shape). -/
def fetch_references (net : Except String (List SsPaper)) :
    AppResult (List SsPaper) × List NetEvent :=
  match net with
  | .ok papers => (.ok papers, [.ssNet])
  | .error e =>
    (.error (.SemanticScholarError ("Fetch references failed: " ++ e)), [.ssNet])

end SemanticScholarClient

/-! ## The search orchestrator (`client/mod.rs`) -/

namespace PaperClient

/-- `PaperClient::try_extract_text` (non-fatal: a failed extraction only
logs a warning and leaves the attachment absent). -/
def try_extract_text (o : Oracles) (paper : AcademicPaper) :
    AcademicPaper × List NetEvent :=
  match o.pdfExtract with
  | .ok text => (paper.set_extracted_text o.chrono text, [.pdfNet])
  | .error _e => (paper, [.pdfNet])

/-- `PaperClient::extract_text` (fallible variant used by the export
assembler). -/
def extract_text (o : Oracles) (paper : AcademicPaper) :
    AppResult AcademicPaper × List NetEvent :=
  match o.pdfExtract with
  | .ok text => (.ok (paper.set_extracted_text o.chrono text), [.pdfNet])
  | .error e => (.error e, [.pdfNet])

/-- `PaperClient::fetch_by_arxiv_id`: fetch, best-effort enrich from an
exact-title Semantic Scholar lookup (failure swallowed), best-effort PDF
extraction (failure swallowed). -/
def fetch_by_arxiv_id (o : Oracles) (arxiv_id : String) :
    AppResult AcademicPaper × List NetEvent :=
  match ArxivClient.fetch_by_id arxiv_id o.arxivFetchById with
  | (.error e, t1) => (.error e, t1)
  | (.ok arxiv_paper, t1) =>
    let paper := AcademicPaper.from_arxiv o.chrono arxiv_paper
    let step2 : AcademicPaper × List NetEvent :=
      match SemanticScholarClient.search_exact_title o.ssExactTitle with
      | (.ok ss_paper, t2) =>
        (paper.enrich_from_semantic_scholar o.chrono ss_paper, t2)
      | (.error _e, t2) => (paper, t2)
    let step3 := try_extract_text o step2.1
    (.ok step3.1, t1 ++ step2.2 ++ step3.2)

/-- `PaperClient::fetch_by_ss_id`. -/
def fetch_by_ss_id (o : Oracles) (_ss_id : String) :
    AppResult AcademicPaper × List NetEvent :=
  match SemanticScholarClient.fetch_details o.ssFetchDetails with
  | (.error e, t1) => (.error e, t1)
  | (.ok ss_paper, t1) =>
    let paper := AcademicPaper.from_semantic_scholar o.chrono ss_paper
    let step2 := try_extract_text o paper
    (.ok step2.1, t1 ++ step2.2)

/-- `PaperClient::fetch_by_id`: each present ID is fetched in turn; every
`?` failure aborts the whole lookup immediately. -/
def fetch_by_id (params : SearchParams) (o : Oracles) :
    AppResult SearchResult × List NetEvent :=
  match params.arxiv_id with
  | some a =>
    match fetch_by_arxiv_id o a with
    | (.error e, t1) => (.error e, t1)
    | (.ok p1, t1) =>
      match params.ss_id with
      | some s =>
        match fetch_by_ss_id o s with
        | (.error e, t2) => (.error e, t1 ++ t2)
        | (.ok p2, t2) =>
          (.ok { papers := [p1, p2]
                 sources := [.ArXiv, .SemanticScholar]
                 total_count := none }, t1 ++ t2)
      | none =>
        (.ok { papers := [p1], sources := [.ArXiv], total_count := none }, t1)
  | none =>
    match params.ss_id with
    | some s =>
      match fetch_by_ss_id o s with
      | (.error e, t1) => (.error e, t1)
      | (.ok p1, t1) =>
        (.ok { papers := [p1], sources := [.SemanticScholar], total_count := none }, t1)
    | none => (.ok SearchResult.new, [])

/-- `PaperClient::search`: ID lookups bypass the fan-out; otherwise both
adapters are queried concurrently (`tokio::join!` — both run to
completion regardless of the other's outcome, the traces of both
branches appear), results mapped and concatenated arXiv-first, a source
pushed for each *successful* request, the merged list deduplicated, and
an empty final list reported as `PaperNotFound`. -/
def search (params : SearchParams) (o : Oracles) :
    AppResult SearchResult × List NetEvent :=
  if params.is_id_lookup then fetch_by_id params o
  else
    let arxivRun := ArxivClient.search params o.arxivSearchNet
    let ssRun := SemanticScholarClient.search params o.ssSearchNet
    let trace := arxivRun.2 ++ ssRun.2
    let arxivPapers :=
      match arxivRun.1 with
      | .ok l => l.map (AcademicPaper.from_arxiv o.chrono)
      | .error _ => []
    let arxivSources : List PaperSource :=
      match arxivRun.1 with
      | .ok _ => [.ArXiv]
      | .error _ => []
    let ssPapers :=
      match ssRun.1 with
      | .ok l => l.map (AcademicPaper.from_semantic_scholar o.chrono)
      | .error _ => []
    let ssSources : List PaperSource :=
      match ssRun.1 with
      | .ok _ => [.SemanticScholar]
      | .error _ => []
    let papers := deduplicate_papers (arxivPapers ++ ssPapers)
    if papers.isEmpty then
      (.error (.PaperNotFound "No papers found matching the search criteria"), trace)
    else
      (.ok { papers := papers, sources := arxivSources ++ ssSources
             total_count := none }, trace)

end PaperClient

/-- A concrete oracle assignment used to instantiate theorems on
concrete inputs. -/
def oracleBase : Oracles :=
  { chrono := ⟨0, fun _ => 0⟩
    arxivSearchNet := []
    ssSearchNet := .ok []
    arxivFetchById := []
    ssExactTitle := .error "offline"
    ssFetchDetails := .error "offline"
    pdfExtract := .error (.PdfExtractionError "offline")
    ssCitations := .ok []
    ssReferences := .ok []
    envLlmProvider := none
    fromEnv := fun _ => .ok ()
    analyzeResult := .error (.LlmError "offline")
    keywordsResult := .error (.LlmError "offline")
    venueOrder := id
    toolVersion := "" }

/-- C10: with both an arXiv ID and a Semantic Scholar ID present, a
failing arXiv-ID fetch (the collaborator returned no paper) makes the
whole search return that `PaperNotFound` error — no papers at all — for
*every* Semantic Scholar oracle, i.e. even when the Semantic Scholar ID
alone would have resolved successfully. -/
theorem C10_id_lookup_all_or_nothing (params : SearchParams) (o : Oracles)
    (a s : String) (ha : params.arxiv_id = some a) (_hs : params.ss_id = some s)
    (hfail : o.arxivFetchById = []) :
    (PaperClient.search params o).1 =
      .error (.PaperNotFound ("arXiv paper not found: " ++ a)) := by
  have hid : params.is_id_lookup = true := by
    simp [SearchParams.is_id_lookup, ha]
  simp [PaperClient.search, hid, PaperClient.fetch_by_id, ha,
    PaperClient.fetch_by_arxiv_id, ArxivClient.fetch_by_id, hfail]

theorem C10_id_lookup_all_or_nothing_witness :
    (PaperClient.search
      { SearchParams.new with arxiv_id := some "2106.09685", ss_id := some "abc" }
      { oracleBase with ssFetchDetails := .ok SsPaper.empty }).1 =
      .error (.PaperNotFound ("arXiv paper not found: " ++ "2106.09685")) :=
  C10_id_lookup_all_or_nothing _ _ "2106.09685" "abc" rfl rfl rfl

/-- Classifier for the claim "a `no search criteria` error": the only
criteria-validation errors the code ever constructs. -/
def isNoCriteriaError (e : AppError) : Prop :=
  e = .ArxivError "No search criteria provided" ∨
  e = .SemanticScholarError "No search criteria provided"

/-- C2 counterexample: on a `SearchParams` with no criteria at all the
operation does fail and no network event is traced, but the surfaced
error is `PaperNotFound "No papers found matching the search criteria"`,
which is not a "no search criteria" validation error — the adapters'
internal `"No search criteria provided"` errors are absorbed. -/
lemma search_no_criteria (params : SearchParams)
    (o : Oracles) (hq : params.query = none) (ht : params.title = none)
    (hau : params.author = none) (hab : params.abstract_contains = none)
    (hai : params.arxiv_id = none) (hsi : params.ss_id = none) :
    PaperClient.search params o =
      (.error (.PaperNotFound "No papers found matching the search criteria"), []) := by
  have hid : params.is_id_lookup = false := by
    simp [SearchParams.is_id_lookup, hai, hsi]
  have harx : ArxivClient.search params o.arxivSearchNet =
      (.error (.ArxivError "No search criteria provided"), []) := by
    simp [ArxivClient.search, ArxivClient.build_query, ht, hau, hab, hq]
  have hss : SemanticScholarClient.search params o.ssSearchNet =
      (.error (.SemanticScholarError "No search criteria provided"), []) := by
    simp [SemanticScholarClient.search, SemanticScholarClient.build_query_text,
      hq, ht, hau]
  simp [PaperClient.search, hid, harx, hss, PaperClient.deduplicate_papers]

theorem C2_counterexample :
    PaperClient.search SearchParams.new oracleBase =
      (.error (.PaperNotFound "No papers found matching the search criteria"), [])
    ∧ ¬ isNoCriteriaError
        (.PaperNotFound "No papers found matching the search criteria") := by
  constructor
  · rfl
  · intro hc
    rcases hc with h | h <;> exact AppError.noConfusion h

/-- C2 (amended): a `SearchParams` with no free-text query, no
title/author/abstract filter, and no ID fields makes the search fail
before any source-adapter network access (the event trace is empty), but
with the `PaperNotFound "No papers found matching the search criteria"`
error: both adapters fail their pre-network query validation, those
errors are absorbed, and the empty merged result is reported as
not-found. -/
theorem C2_amended_no_criteria_fails_before_network (params : SearchParams)
    (o : Oracles) (hq : params.query = none) (ht : params.title = none)
    (hau : params.author = none) (hab : params.abstract_contains = none)
    (hai : params.arxiv_id = none) (hsi : params.ss_id = none) :
    PaperClient.search params o =
      (.error (.PaperNotFound "No papers found matching the search criteria"), []) :=
  search_no_criteria params o hq ht hau hab hai hsi

theorem C2_amended_no_criteria_fails_before_network_witness :
    PaperClient.search SearchParams.new oracleBase =
      (.error (.PaperNotFound "No papers found matching the search criteria"), []) :=
  C2_amended_no_criteria_fails_before_network SearchParams.new oracleBase
    rfl rfl rfl rfl rfl rfl

namespace PaperClient

lemma deduplicate_ne_nil (papers : List AcademicPaper) (h : papers ≠ []) :
    deduplicate_papers papers ≠ [] := by
  cases papers with
  | nil => exact absurd rfl h
  | cons p ps =>
    rw [deduplicate_eq_specKeepFirst]
    simp [specKeepFirst]

end PaperClient

/-- The per-source `sources` contribution of one adapter outcome. -/
def sourceTag (src : PaperSource) : AppResult (List SsPaper) → List PaperSource
  | .ok _ => [src]
  | .error _ => []

/-- The per-source `sources` contribution of the arXiv adapter outcome. -/
def sourceTagArxiv : AppResult (List ArxivPaper) → List PaperSource
  | .ok _ => [.ArXiv]
  | .error _ => []

/-- C6 (amended): for a non-ID search, the `sources` list contains
exactly the sources whose *request succeeded* — a failing source is
omitted, and when one source fails while the other succeeds with at
least one record the operation succeeds with `sources` listing exactly
the surviving source — but a source that succeeds with zero records
still appears (the push happens on request success, before any record
count or deduplication is considered). -/
theorem C6_amended_sources_of_successful_requests (params : SearchParams)
    (o : Oracles) (h : params.is_id_lookup = false) :
    (∀ r, (PaperClient.search params o).1 = .ok r →
      r.sources = sourceTagArxiv (ArxivClient.search params o.arxivSearchNet).1 ++
        sourceTag .SemanticScholar (SemanticScholarClient.search params o.ssSearchNet).1)
    ∧ (∀ e l, (ArxivClient.search params o.arxivSearchNet).1 = .error e →
        (SemanticScholarClient.search params o.ssSearchNet).1 = .ok l → l ≠ [] →
        ∃ r, (PaperClient.search params o).1 = .ok r ∧
          r.sources = [PaperSource.SemanticScholar] ∧ r.papers ≠ [])
    ∧ (∀ e l, (SemanticScholarClient.search params o.ssSearchNet).1 = .error e →
        (ArxivClient.search params o.arxivSearchNet).1 = .ok l → l ≠ [] →
        ∃ r, (PaperClient.search params o).1 = .ok r ∧
          r.sources = [PaperSource.ArXiv] ∧ r.papers ≠ []) := by
  refine ⟨?_, ?_, ?_⟩
  · intro r hr
    rw [PaperClient.search] at hr
    rw [h] at hr
    simp only [Bool.false_eq_true, if_false] at hr
    cases harx : (ArxivClient.search params o.arxivSearchNet).1 with
    | ok la =>
      cases hss : (SemanticScholarClient.search params o.ssSearchNet).1 with
      | ok ls =>
        simp only [harx, hss] at hr
        by_cases hemp : PaperClient.deduplicate_papers
            (la.map (AcademicPaper.from_arxiv o.chrono) ++
              ls.map (AcademicPaper.from_semantic_scholar o.chrono)) = []
        · simp [hemp] at hr
        · simp [hemp] at hr
          subst hr
          simp [sourceTagArxiv, sourceTag]
      | error es =>
        simp only [harx, hss] at hr
        by_cases hemp : PaperClient.deduplicate_papers
            (la.map (AcademicPaper.from_arxiv o.chrono)) = []
        · simp [hemp] at hr
        · simp [hemp] at hr
          subst hr
          simp [sourceTagArxiv, sourceTag]
    | error ea =>
      cases hss : (SemanticScholarClient.search params o.ssSearchNet).1 with
      | ok ls =>
        simp only [harx, hss] at hr
        by_cases hemp : PaperClient.deduplicate_papers
            (ls.map (AcademicPaper.from_semantic_scholar o.chrono)) = []
        · simp [hemp] at hr
        · simp [hemp] at hr
          subst hr
          simp [sourceTagArxiv, sourceTag]
      | error es =>
        simp only [harx, hss] at hr
        simp [PaperClient.deduplicate_papers] at hr
  · intro e l harx hss hl
    rw [PaperClient.search]
    rw [h]
    simp only [Bool.false_eq_true, if_false]
    simp only [harx, hss]
    have hmap : l.map (AcademicPaper.from_semantic_scholar o.chrono) ≠ [] := by
      simpa [List.map_eq_nil_iff] using hl
    have hded := PaperClient.deduplicate_ne_nil
      ([] ++ l.map (AcademicPaper.from_semantic_scholar o.chrono)) (by simpa using hmap)
    have hemp : (PaperClient.deduplicate_papers
        ([] ++ l.map (AcademicPaper.from_semantic_scholar o.chrono))).isEmpty = false := by
      rw [List.isEmpty_eq_false]
      exact hded
    simp only [hemp, Bool.false_eq_true, if_false]
    exact ⟨_, rfl, rfl, hded⟩
  · intro e l hss harx hl
    rw [PaperClient.search]
    rw [h]
    simp only [Bool.false_eq_true, if_false]
    simp only [harx, hss]
    have hmap : l.map (AcademicPaper.from_arxiv o.chrono) ≠ [] := by
      simpa [List.map_eq_nil_iff] using hl
    have hded := PaperClient.deduplicate_ne_nil
      (l.map (AcademicPaper.from_arxiv o.chrono) ++ []) (by simpa using hmap)
    have hemp : (PaperClient.deduplicate_papers
        (l.map (AcademicPaper.from_arxiv o.chrono) ++ [])).isEmpty = false := by
      rw [List.isEmpty_eq_false]
      exact hded
    simp only [hemp, Bool.false_eq_true, if_false]
    exact ⟨_, rfl, rfl, hded⟩

/-- Concrete Semantic Scholar record used by the C6 counterexample. -/
def c6ssp : SsPaper := { SsPaper.empty with title := some "T" }

/-- Concrete non-ID search used by the C6 counterexample. -/
def c6params : SearchParams := SearchParams.new.with_title "q"

/-- Concrete oracle: the arXiv request *succeeds with zero records*, the
Semantic Scholar request succeeds with one record. -/
def c6oracle : Oracles :=
  { oracleBase with arxivSearchNet := [], ssSearchNet := .ok [c6ssp] }

/-- C6 counterexample: when the arXiv request succeeds with zero records
and Semantic Scholar contributes the only record, the code still lists
`ArXiv` in `sources` — so `sources` is not "exactly the sources that
contributed at least one record" (that would be `[SemanticScholar]`). -/
theorem C6_counterexample :
    (PaperClient.search c6params c6oracle).1 =
      .ok { papers := [AcademicPaper.from_semantic_scholar c6oracle.chrono c6ssp]
            sources := [PaperSource.ArXiv, PaperSource.SemanticScholar]
            total_count := none }
    ∧ (AcademicPaper.from_semantic_scholar c6oracle.chrono c6ssp).arxiv_paper = none
    ∧ ([PaperSource.ArXiv, PaperSource.SemanticScholar] : List PaperSource) ≠
        [PaperSource.SemanticScholar] := by
  refine ⟨?_, rfl, by decide⟩
  rfl

theorem C6_amended_sources_of_successful_requests_witness :
    c6params.is_id_lookup = false
    ∧ ((∀ r, (PaperClient.search c6params c6oracle).1 = .ok r →
        r.sources = sourceTagArxiv
            (ArxivClient.search c6params c6oracle.arxivSearchNet).1 ++
          sourceTag .SemanticScholar
            (SemanticScholarClient.search c6params c6oracle.ssSearchNet).1)
      ∧ (∀ e l, (ArxivClient.search c6params c6oracle.arxivSearchNet).1 = .error e →
          (SemanticScholarClient.search c6params c6oracle.ssSearchNet).1 = .ok l →
          l ≠ [] →
          ∃ r, (PaperClient.search c6params c6oracle).1 = .ok r ∧
            r.sources = [PaperSource.SemanticScholar] ∧ r.papers ≠ [])
      ∧ (∀ e l, (SemanticScholarClient.search c6params c6oracle.ssSearchNet).1 = .error e →
          (ArxivClient.search c6params c6oracle.arxivSearchNet).1 = .ok l → l ≠ [] →
          ∃ r, (PaperClient.search c6params c6oracle).1 = .ok r ∧
            r.sources = [PaperSource.ArXiv] ∧ r.papers ≠ [])) :=
  ⟨rfl, C6_amended_sources_of_successful_requests c6params c6oracle rfl⟩

/-! ## Enrichment (`models.rs`, claim C3) -/

/-- Concrete primary record for the C3 counterexample: bibtex and
open-access URL both populated. -/
def c3primary : AcademicPaper :=
  { AcademicPaper.defaultPaper with
    title := "t", bibtex := "bib-a", is_open_access := true
    open_access_pdf_url := some "https://example.org/a.pdf" }

/-- Concrete secondary record for the C3 counterexample: an open-access
PDF entry is present but its URL is absent. -/
def c3secondary : SsPaper :=
  { SsPaper.empty with open_access_pdf := some ⟨none⟩ }

/-- C3 counterexample: enrichment overwrites the open-access URL with
the secondary record's (absent) PDF URL whenever a secondary
open-access-PDF entry exists, reducing a previously non-empty
open-access URL to empty — it is *not* "set only when not already
populated". -/
theorem C3_counterexample :
    c3primary.open_access_pdf_url = some "https://example.org/a.pdf"
    ∧ (AcademicPaper.enrich_from_semantic_scholar ⟨0, fun _ => 0⟩ c3primary
        c3secondary).open_access_pdf_url = none :=
  ⟨rfl, rfl⟩

/-- C3 (amended): enrichment always overwrites the citation, reference
and influential-citation counts with the secondary source's values (the
`as i32` cast of `unwrap_or(0)`, hence also when the secondary value is
0); it never reduces a non-empty bibtex (bibtex is fill-if-empty); but
the open-access URL is unconditionally overwritten with the secondary's
PDF URL whenever the secondary record carries an open-access-PDF entry
— possibly clearing it — and left unchanged otherwise. -/
theorem C3_amended_enrichment_rules (env : ChronoEnv) (self : AcademicPaper)
    (paper : SsPaper) :
    (AcademicPaper.enrich_from_semantic_scholar env self paper).citations_count =
      toI32 (paper.citation_count.getD 0)
    ∧ (AcademicPaper.enrich_from_semantic_scholar env self paper).references_count =
      toI32 (paper.reference_count.getD 0)
    ∧ (AcademicPaper.enrich_from_semantic_scholar env self
        paper).influential_citation_count =
      toI32 (paper.influential_citation_count.getD 0)
    ∧ (self.bibtex ≠ "" →
        (AcademicPaper.enrich_from_semantic_scholar env self paper).bibtex =
          self.bibtex)
    ∧ (self.bibtex = "" →
        (AcademicPaper.enrich_from_semantic_scholar env self paper).bibtex =
          (match paper.citation_styles with
            | some cs => cs.bibtex.getD ""
            | none => ""))
    ∧ (AcademicPaper.enrich_from_semantic_scholar env self paper).open_access_pdf_url =
        (match paper.open_access_pdf with
          | some pdf => pdf.url
          | none => self.open_access_pdf_url) := by
  refine ⟨rfl, rfl, rfl, ?_, ?_, ?_⟩
  · intro h
    simp only [AcademicPaper.enrich_from_semantic_scholar]
    rw [if_neg h]
  · intro h
    simp only [AcademicPaper.enrich_from_semantic_scholar]
    rw [if_pos h]
    cases hcs : paper.citation_styles with
    | none => simp [hcs, h]
    | some cs =>
      cases hb : cs.bibtex with
      | none => simp [hcs, hb, h]
      | some b => simp [hcs, hb]
  · simp only [AcademicPaper.enrich_from_semantic_scholar]
    cases hoa : paper.open_access_pdf with
    | none => simp [hoa]
    | some pdf => simp [hoa]

theorem C3_amended_enrichment_rules_witness :
    (AcademicPaper.enrich_from_semantic_scholar ⟨0, fun _ => 0⟩ c3primary
        c3secondary).citations_count = toI32 (c3secondary.citation_count.getD 0)
    ∧ (AcademicPaper.enrich_from_semantic_scholar ⟨0, fun _ => 0⟩ c3primary
        c3secondary).references_count = toI32 (c3secondary.reference_count.getD 0)
    ∧ (AcademicPaper.enrich_from_semantic_scholar ⟨0, fun _ => 0⟩ c3primary
        c3secondary).influential_citation_count =
      toI32 (c3secondary.influential_citation_count.getD 0)
    ∧ (c3primary.bibtex ≠ "" →
        (AcademicPaper.enrich_from_semantic_scholar ⟨0, fun _ => 0⟩ c3primary
          c3secondary).bibtex = c3primary.bibtex)
    ∧ (c3primary.bibtex = "" →
        (AcademicPaper.enrich_from_semantic_scholar ⟨0, fun _ => 0⟩ c3primary
          c3secondary).bibtex =
          (match c3secondary.citation_styles with
            | some cs => cs.bibtex.getD ""
            | none => ""))
    ∧ (AcademicPaper.enrich_from_semantic_scholar ⟨0, fun _ => 0⟩ c3primary
        c3secondary).open_access_pdf_url =
        (match c3secondary.open_access_pdf with
          | some pdf => pdf.url
          | none => c3primary.open_access_pdf_url) :=
  C3_amended_enrichment_rules ⟨0, fun _ => 0⟩ c3primary c3secondary

/-! ## Paper summaries (`export.rs`, claim C5) -/

/-- UTF-8 byte length of a character list (Rust `str::len`). -/
def utf8ByteLen (s : List Char) : Nat :=
  s.foldl (fun n c => n + c.utf8Size) 0

/-- Rust byte slice `&s[..n]` on a string of more than `n` bytes: take
characters while their cumulative UTF-8 size stays within `n`; landing
exactly on `n` is a character boundary, anything else (a character
straddling byte `n`, or the string running out) is a panic (`none`). -/
def byteTake : Nat → List Char → Option (List Char)
  | 0, _ => some []
  | Nat.succ _, [] => none
  | Nat.succ n, c :: cs =>
    if c.utf8Size ≤ n + 1 then
      (byteTake (n + 1 - c.utf8Size) cs).map (fun l => c :: l)
    else none

/-- `export::PaperSummary`. -/
structure PaperSummary where
  ss_id : String
  arxiv_id : String
  doi : String
  title : String
  authors : List String
  year : Int
  venue : String
  citation_count : Int
  influential_citation_count : Int
  abstract_snippet : String
  url : String
deriving DecidableEq, Repr

namespace PaperSummary

/-- `PaperSummary::from_academic_paper`. The abstract snippet compares
and slices the abstract by *bytes* (`len() > 500`, `&s[..500]`); a slice
boundary inside a multi-byte character is a Rust panic, modeled as
`none`. The `%Y` format/parse round-trip of the publication date is the
identity in the year-granular date model. -/
def from_academic_paper (paper : AcademicPaper) : Option PaperSummary :=
  let snippetM : Option String :=
    if utf8ByteLen paper.abstract_text.data > 500 then
      (byteTake 500 paper.abstract_text.data).map (fun cs => String.mk cs ++ "...")
    else some paper.abstract_text
  match snippetM with
  | none => none
  | some abstract_snippet =>
    some { ss_id := paper.ss_id
           arxiv_id := paper.arxiv_id
           doi := paper.doi
           title := paper.title
           authors := paper.authors.map (fun a => a.name)
           year := paper.published_date
           venue := paper.journal
           citation_count := paper.citations_count
           influential_citation_count := paper.influential_citation_count
           abstract_snippet := abstract_snippet
           url := paper.url }

end PaperSummary

/-- The C5 failing input: 499 ASCII characters followed by `'é'`
(two UTF-8 bytes), an abstract of 501 bytes whose byte 500 falls inside
the final character. -/
def c5paper : AcademicPaper :=
  { AcademicPaper.defaultPaper with
    abstract_text := String.mk (List.replicate 499 'a' ++ ['é']) }

set_option maxRecDepth 4000 in
/-- C5: constructing a `PaperSummary` from a record whose abstract has
more than 500 UTF-8 bytes with byte 500 inside a multi-byte character
panics (`&abstract[..500]` is not on a character boundary), refuting
"constructing a PaperSummary succeeds (never panics)". -/
theorem C5_summary_panics_on_multibyte_abstract :
    utf8ByteLen c5paper.abstract_text.data = 501
    ∧ PaperSummary.from_academic_paper c5paper = none := by
  constructor
  · decide
  · decide

/-! ## Citation/reference statistics (`export.rs`, claim C4) -/

/-- One `HashMap::entry(k).or_insert(0) += 1` step on the map *content*,
modeled as an association list in first-insertion order (keys are unique
by construction). -/
def bumpAssoc {κ : Type} [DecidableEq κ] (m : List (κ × Nat)) (k : κ) :
    List (κ × Nat) :=
  if m.any (fun kv => kv.1 == k) then
    m.map (fun kv => if kv.1 = k then (kv.1, kv.2 + 1) else kv)
  else m ++ [(k, 1)]

/-- Content of the `venues` map built by the statistics loop (non-empty
venues only). -/
def collectVenues (papers : List PaperSummary) : List (String × Nat) :=
  papers.foldl (fun m p => if p.venue = "" then m else bumpAssoc m p.venue) []

/-- Content of the `by_year` map built by the statistics loop (years > 0
only). -/
def collectYears (papers : List PaperSummary) : List (Int × Nat) :=
  papers.foldl (fun m p => if p.year > 0 then bumpAssoc m p.year else m) []

/-- Stable insertion step for `sort_by(|a, b| b.1.cmp(&a.1))` on
venue/count pairs: descending by count, equal counts keep their relative
order. -/
def insertCountDesc (x : String × Nat) : List (String × Nat) → List (String × Nat)
  | [] => [x]
  | y :: ys => if y.2 ≥ x.2 then y :: insertCountDesc x ys else x :: y :: ys

/-- Rust's stable `sort_by` with the count-descending comparator,
modeled as stable insertion sort (extensionally equal to any stable sort
for this total preorder comparator). -/
def sortCountDesc (l : List (String × Nat)) : List (String × Nat) :=
  l.foldl (fun s x => insertCountDesc x s) []

/-- Stable insertion step for sorting summaries by citation count
descending. -/
def insertCiteDesc (x : PaperSummary) : List PaperSummary → List PaperSummary
  | [] => [x]
  | y :: ys =>
    if y.citation_count ≥ x.citation_count then y :: insertCiteDesc x ys
    else x :: y :: ys

/-- Stable sort of summaries by citation count descending. -/
def sortCiteDesc (l : List PaperSummary) : List PaperSummary :=
  l.foldl (fun s x => insertCiteDesc x s) []

/-- `export::CitationStatistics`. The two `HashMap` fields hold map
*content*, modeled as first-insertion-ordered association lists. -/
structure CitationStatistics where
  by_year : List (Int × Nat)
  top_venues : List (String × Nat)
  avg_citation_count : ℚ
  most_influential : List String
deriving DecidableEq, Repr

/-- `CitationStatistics::from_papers`. `venueIter` is the order in which
`venues.into_iter()` yields the map's entries: `std::collections::HashMap`
iterates in an order randomized per process, so it is an arbitrary
permutation of the map content (`collectVenues papers`) supplied as a
parameter; the `f64` average is computed exactly over `ℚ`. -/
def CitationStatistics.from_papers (venueIter : List (String × Nat))
    (papers : List PaperSummary) : CitationStatistics :=
  { by_year := collectYears papers
    top_venues := (sortCountDesc venueIter).take 10
    avg_citation_count :=
      if papers.isEmpty then 0
      else ((papers.foldl (fun t p => t + p.citation_count) 0 : Int) : ℚ) /
        (papers.length : ℚ)
    most_influential := ((sortCiteDesc papers).take 5).map (fun p => p.title) }

/-- `export::ReferenceStatistics`. -/
structure ReferenceStatistics where
  by_year : List (Int × Nat)
  year_range : Option (Int × Int)
  top_venues : List (String × Nat)
deriving DecidableEq, Repr

/-- `ReferenceStatistics::from_papers` (same `venueIter` convention as
`CitationStatistics.from_papers`). -/
def ReferenceStatistics.from_papers (venueIter : List (String × Nat))
    (papers : List PaperSummary) : ReferenceStatistics :=
  { by_year := collectYears papers
    year_range :=
      papers.foldl (fun (acc : Option (Int × Int)) p =>
        if p.year > (0 : Int) then
          match acc with
          | none => some (p.year, p.year)
          | some (mn, mx) => some (min mn p.year, max mx p.year)
        else acc) none
    top_venues := (sortCountDesc venueIter).take 10 }

lemma insertCountDesc_perm (x : String × Nat) :
    ∀ l : List (String × Nat), (insertCountDesc x l).Perm (x :: l) := by
  intro l
  induction l with
  | nil => simp [insertCountDesc]
  | cons y ys ih =>
    simp only [insertCountDesc]
    by_cases hge : y.2 ≥ x.2
    · rw [if_pos hge]
      exact (ih.cons y).trans (List.Perm.swap x y ys)
    · rw [if_neg hge]

lemma sortCountDesc_perm (l : List (String × Nat)) :
    (sortCountDesc l).Perm l := by
  suffices h : ∀ (l acc : List (String × Nat)),
      (l.foldl (fun s x => insertCountDesc x s) acc).Perm (acc ++ l) by
    simpa using h l []
  intro l
  induction l with
  | nil => intro acc; simp
  | cons x xs ih =>
    intro acc
    have h1 := ih (insertCountDesc x acc)
    have h2 : (insertCountDesc x acc ++ xs).Perm (acc ++ x :: xs) :=
      ((insertCountDesc_perm x acc).append_right xs).trans List.perm_middle.symm
    exact h1.trans h2

lemma insertCountDesc_pairwise (x : String × Nat) :
    ∀ l : List (String × Nat),
      l.Pairwise (fun a b => a.2 ≥ b.2) →
      (insertCountDesc x l).Pairwise (fun a b => a.2 ≥ b.2) := by
  intro l
  induction l with
  | nil => intro _; simp [insertCountDesc]
  | cons y ys ih =>
    intro hp
    obtain ⟨hy, hys⟩ := List.pairwise_cons.mp hp
    simp only [insertCountDesc]
    by_cases hge : y.2 ≥ x.2
    · rw [if_pos hge]
      refine List.pairwise_cons.mpr ⟨?_, ih hys⟩
      intro z hz
      have hz2 : z ∈ x :: ys := (insertCountDesc_perm x ys).mem_iff.mp hz
      rcases List.mem_cons.mp hz2 with rfl | hz3
      · exact hge
      · exact hy z hz3
    · rw [if_neg hge]
      push_neg at hge
      refine List.pairwise_cons.mpr ⟨?_, hp⟩
      intro z hz
      rcases List.mem_cons.mp hz with rfl | hz3
      · exact le_of_lt hge
      · exact le_trans (hy z hz3) (le_of_lt hge)

lemma sortCountDesc_pairwise (l : List (String × Nat)) :
    (sortCountDesc l).Pairwise (fun a b => a.2 ≥ b.2) := by
  suffices h : ∀ (l acc : List (String × Nat)),
      acc.Pairwise (fun a b => a.2 ≥ b.2) →
      (l.foldl (fun s x => insertCountDesc x s) acc).Pairwise
        (fun a b => a.2 ≥ b.2) by
    exact h l [] (by simp)
  intro l
  induction l with
  | nil => intro acc hacc; simpa using hacc
  | cons x xs ih =>
    intro acc hacc
    simpa using ih (insertCountDesc x acc) (insertCountDesc_pairwise x acc hacc)

lemma sortCountDesc_counts_deterministic {l1 l2 : List (String × Nat)}
    (h : l1.Perm l2) :
    (sortCountDesc l1).map Prod.snd = (sortCountDesc l2).map Prod.snd := by
  haveI : IsAntisymm Nat (fun a b : Nat => a ≥ b) :=
    ⟨fun _ _ h1 h2 => le_antisymm h2 h1⟩
  have hp : ((sortCountDesc l1).map Prod.snd).Perm
      ((sortCountDesc l2).map Prod.snd) :=
    ((sortCountDesc_perm l1).map Prod.snd).trans
      ((h.map Prod.snd).trans ((sortCountDesc_perm l2).map Prod.snd).symm)
  have hs1 : ((sortCountDesc l1).map Prod.snd).Pairwise (fun a b : Nat => a ≥ b) :=
    List.pairwise_map.mpr (sortCountDesc_pairwise l1)
  have hs2 : ((sortCountDesc l2).map Prod.snd).Pairwise (fun a b : Nat => a ≥ b) :=
    List.pairwise_map.mpr (sortCountDesc_pairwise l2)
  exact List.eq_of_perm_of_sorted hp hs1 hs2

/-- A summary with the given venue and all other fields empty, used for
the C4 inputs. -/
def c4summary (v : String) : PaperSummary :=
  { ss_id := "", arxiv_id := "", doi := "", title := "", authors := []
    year := 0, venue := v, citation_count := 0
    influential_citation_count := 0, abstract_snippet := "", url := "" }

/-- Two summaries with distinct venues, each venue occurring once. -/
def c4papers : List PaperSummary := [c4summary "aaa", c4summary "bbb"]

/-- One possible `HashMap` iteration order over the venue map. -/
def c4order1 : List (String × Nat) := [("aaa", 1), ("bbb", 1)]

/-- The other possible `HashMap` iteration order over the venue map. -/
def c4order2 : List (String × Nat) := [("bbb", 1), ("aaa", 1)]

/-- C4 counterexample: both orders are valid iteration orders of the
same venue map (permutations of its content), yet they produce different
`top_venues` lists — the tie order among equal counts follows the
randomized `HashMap` iteration order, so two runs on the same input can
disagree. -/
theorem C4_counterexample :
    c4order1.Perm (collectVenues c4papers)
    ∧ c4order2.Perm (collectVenues c4papers)
    ∧ (CitationStatistics.from_papers c4order1 c4papers).top_venues ≠
      (CitationStatistics.from_papers c4order2 c4papers).top_venues := by
  refine ⟨by decide, by decide, by decide⟩

/-- C4 (amended): for a fixed input, `top_venues` is always sorted
descending by count, has at most 10 entries, its entries come from the
venue-count map, and the *sequence of counts* is independent of the
`HashMap` iteration order; but the venue names at tied counts follow the
randomized iteration order and may differ between runs (see the
counterexample). -/
theorem C4_amended_top_venues_counts_deterministic (papers : List PaperSummary)
    (o1 o2 : List (String × Nat))
    (h1 : o1.Perm (collectVenues papers)) (h2 : o2.Perm (collectVenues papers)) :
    (CitationStatistics.from_papers o1 papers).top_venues.map Prod.snd =
      (CitationStatistics.from_papers o2 papers).top_venues.map Prod.snd
    ∧ (CitationStatistics.from_papers o1 papers).top_venues.Pairwise
        (fun a b => a.2 ≥ b.2)
    ∧ (CitationStatistics.from_papers o1 papers).top_venues.length ≤ 10
    ∧ (∀ kv, kv ∈ (CitationStatistics.from_papers o1 papers).top_venues →
        kv ∈ collectVenues papers) := by
  have hdet := sortCountDesc_counts_deterministic (h1.trans h2.symm)
  refine ⟨?_, ?_, ?_, ?_⟩
  · simp only [CitationStatistics.from_papers, List.map_take, hdet]
  · exact (sortCountDesc_pairwise o1).sublist (List.take_sublist 10 _)
  · simp [CitationStatistics.from_papers]
  · intro kv hkv
    have h3 : kv ∈ sortCountDesc o1 := (List.take_sublist 10 _).subset hkv
    exact h1.mem_iff.mp ((sortCountDesc_perm o1).mem_iff.mp h3)

theorem C4_amended_top_venues_counts_deterministic_witness :
    c4order1.Perm (collectVenues c4papers)
    ∧ c4order2.Perm (collectVenues c4papers)
    ∧ ((CitationStatistics.from_papers c4order1 c4papers).top_venues.map Prod.snd =
        (CitationStatistics.from_papers c4order2 c4papers).top_venues.map Prod.snd
      ∧ (CitationStatistics.from_papers c4order1 c4papers).top_venues.Pairwise
          (fun a b => a.2 ≥ b.2)
      ∧ (CitationStatistics.from_papers c4order1 c4papers).top_venues.length ≤ 10
      ∧ (∀ kv, kv ∈ (CitationStatistics.from_papers c4order1 c4papers).top_venues →
          kv ∈ collectVenues c4papers)) :=
  ⟨by decide, by decide,
    C4_amended_top_venues_counts_deterministic c4papers c4order1 c4order2
      (by decide) (by decide)⟩

/-! ## Citation network fetch (`client/mod.rs`, `main.rs`, claim C9) -/

namespace PaperClient

/-- `PaperClient::fetch_citations`: requires the Semantic Scholar
identifier, then maps every edge to an `AcademicPaper`. -/
def fetch_citations (o : Oracles) (paper : AcademicPaper) :
    AppResult (List AcademicPaper) × List NetEvent :=
  match paper.ssIdResult with
  | .error e => (.error e, [])
  | .ok _sid =>
    match SemanticScholarClient.fetch_citations o.ssCitations with
    | (.ok l, t) => (.ok (l.map (AcademicPaper.from_semantic_scholar o.chrono)), t)
    | (.error e, t) => (.error e, t)

/-- `PaperClient::fetch_references`. -/
def fetch_references (o : Oracles) (paper : AcademicPaper) :
    AppResult (List AcademicPaper) × List NetEvent :=
  match paper.ssIdResult with
  | .error e => (.error e, [])
  | .ok _sid =>
    match SemanticScholarClient.fetch_references o.ssReferences with
    | (.ok l, t) => (.ok (l.map (AcademicPaper.from_semantic_scholar o.chrono)), t)
    | (.error e, t) => (.error e, t)

end PaperClient

/-- `export::CitationData`. -/
structure CitationData where
  total_count : Int
  fetched_count : Nat
  papers : List PaperSummary
  statistics : CitationStatistics
deriving DecidableEq, Repr

/-- `export::ReferenceData`. -/
structure ReferenceData where
  total_count : Int
  fetched_count : Nat
  papers : List PaperSummary
  statistics : ReferenceStatistics
deriving DecidableEq, Repr

/-- Rust `iter().map(f).collect()` where `f` can panic: the first panic
aborts the whole collection (`none`). -/
def mapPanic {α β : Type} (f : α → Option β) : List α → Option (List β)
  | [] => some []
  | x :: xs =>
    match f x with
    | none => none
    | some y => (mapPanic f xs).map (fun ys => y :: ys)

lemma mapPanic_length {α β : Type} (f : α → Option β) :
    ∀ (xs : List α) (ys : List β), mapPanic f xs = some ys →
      ys.length = xs.length := by
  intro xs
  induction xs with
  | nil =>
    intro ys h
    simp only [mapPanic, Option.some.injEq] at h
    subst h
    rfl
  | cons x xs ih =>
    intro ys h
    simp only [mapPanic] at h
    cases hfx : f x with
    | none => rw [hfx] at h; exact absurd h (by simp)
    | some y =>
      rw [hfx] at h
      cases hrest : mapPanic f xs with
      | none => rw [hrest] at h; exact absurd h (by simp)
      | some ys0 =>
        rw [hrest] at h
        injection h with h2
        subst h2
        simp [ih ys0 hrest]

/-- `main::fetch_citations`: fetch the full edge list, truncate to
`max_citations` (a plain prefix `take`), absent sentinel when the
truncated list is empty, otherwise summaries plus statistics with
`total_count` taken from the paper's own counter. A panicking summary
construction (see C5) aborts the whole computation (`none`). -/
def fetch_citations (o : Oracles) (paper : AcademicPaper) (max_citations : Nat) :
    Option (AppResult (Option CitationData)) :=
  match (PaperClient.fetch_citations o paper).1 with
  | .error e => some (.error e)
  | .ok citations =>
    let limited := citations.take max_citations
    if limited.isEmpty then some (.ok none)
    else
      match mapPanic PaperSummary.from_academic_paper limited with
      | none => none
      | some summaries =>
        some (.ok (some
          { total_count := paper.citations_count
            fetched_count := summaries.length
            papers := summaries
            statistics := CitationStatistics.from_papers
              (o.venueOrder (collectVenues summaries)) summaries }))

/-- `main::fetch_references` (same shape; `total_count` is the paper's
own reference counter). -/
def fetch_references (o : Oracles) (paper : AcademicPaper) (max_citations : Nat) :
    Option (AppResult (Option ReferenceData)) :=
  match (PaperClient.fetch_references o paper).1 with
  | .error e => some (.error e)
  | .ok references =>
    let limited := references.take max_citations
    if limited.isEmpty then some (.ok none)
    else
      match mapPanic PaperSummary.from_academic_paper limited with
      | none => none
      | some summaries =>
        some (.ok (some
          { total_count := paper.references_count
            fetched_count := summaries.length
            papers := summaries
            statistics := ReferenceStatistics.from_papers
              (o.venueOrder (collectVenues summaries)) summaries }))

/-- C9: the fetched citation list is a plain prefix truncation of the
collaborator's edge list to at most `max_citations` entries (no
reordering — the summaries are the element-wise image of the truncated
prefix); an empty truncated list yields the absent sentinel rather than
an empty container; otherwise `fetched_count` equals the number of
truncated entries (`min max_citations l.length`) and `total_count`
equals the paper's own citation counter, not the fetched length. -/
theorem C9_citations_prefix_truncation (o : Oracles) (paper : AcademicPaper)
    (max_citations : Nat) (l : List SsPaper) (s : List PaperSummary)
    (hss : paper.ss_id ≠ "")
    (hnet : o.ssCitations = .ok l)
    (hsum : mapPanic PaperSummary.from_academic_paper
        ((l.map (AcademicPaper.from_semantic_scholar o.chrono)).take max_citations)
        = some s) :
    (l.take max_citations = [] →
      fetch_citations o paper max_citations = some (.ok none))
    ∧ (l.take max_citations ≠ [] →
        fetch_citations o paper max_citations = some (.ok (some
          { total_count := paper.citations_count
            fetched_count := s.length
            papers := s
            statistics := CitationStatistics.from_papers
              (o.venueOrder (collectVenues s)) s })))
    ∧ s.length = min max_citations l.length := by
  have hid : paper.ssIdResult = .ok paper.ss_id := by
    simp only [AcademicPaper.ssIdResult]
    rw [if_pos hss]
  have hclient : (PaperClient.fetch_citations o paper).1 =
      .ok (l.map (AcademicPaper.from_semantic_scholar o.chrono)) := by
    simp [PaperClient.fetch_citations, hid, SemanticScholarClient.fetch_citations,
      hnet]
  have hmt : (l.map (AcademicPaper.from_semantic_scholar o.chrono)).take
      max_citations = (l.take max_citations).map
        (AcademicPaper.from_semantic_scholar o.chrono) := by
    rw [List.map_take]
  have hlen : s.length = min max_citations l.length := by
    have := mapPanic_length _ _ _ hsum
    rw [this, List.length_take, List.length_map]
  refine ⟨?_, ?_, hlen⟩
  · intro hempty
    rw [fetch_citations]
    rw [hclient]
    simp only [hmt, hempty]
    simp
  · intro hnonempty
    rw [fetch_citations]
    rw [hclient]
    have hne : ((l.map (AcademicPaper.from_semantic_scholar o.chrono)).take
        max_citations).isEmpty = false := by
      rw [hmt, List.isEmpty_eq_false]
      simpa [List.map_eq_nil_iff] using hnonempty
    simp only [hne, Bool.false_eq_true, if_false]
    rw [hsum]

/-- Concrete edge list for the C9 witness: three citing papers. -/
def c9edges : List SsPaper :=
  [SsPaper.empty, { SsPaper.empty with title := some "b" }, SsPaper.empty]

/-- Concrete oracle for the C9 witness. -/
def c9oracle : Oracles := { oracleBase with ssCitations := .ok c9edges }

/-- Concrete target paper for the C9 witness: 200 total citations
reported by the record itself, Semantic Scholar ID present. -/
def c9target : AcademicPaper :=
  { AcademicPaper.defaultPaper with ss_id := "x", citations_count := 200 }

/-- The summaries of the two-element truncated prefix of `c9edges`. -/
def c9summaries : List PaperSummary :=
  (mapPanic PaperSummary.from_academic_paper
    ((c9edges.map (AcademicPaper.from_semantic_scholar c9oracle.chrono)).take 2)).getD []

theorem C9_citations_prefix_truncation_witness :
    (c9edges.take 2 = [] → fetch_citations c9oracle c9target 2 = some (.ok none))
    ∧ (c9edges.take 2 ≠ [] →
        fetch_citations c9oracle c9target 2 = some (.ok (some
          { total_count := c9target.citations_count
            fetched_count := c9summaries.length
            papers := c9summaries
            statistics := CitationStatistics.from_papers
              (c9oracle.venueOrder (collectVenues c9summaries)) c9summaries })))
    ∧ c9summaries.length = min 2 c9edges.length :=
  C9_citations_prefix_truncation c9oracle c9target 2 c9edges c9summaries
    (by decide) rfl rfl

/-! ## The export assembler (`export.rs`, `main.rs`, claim C1) -/

/-- `export::ExportOptions`. -/
structure ExportOptions where
  analyzed : Bool
  text_extracted : Bool
  citations_included : Bool
  references_included : Bool
  keywords_extracted : Bool
  max_citations : Nat
  llm_provider : Option String
  llm_model : Option String
deriving DecidableEq, Repr

/-- `export::ExportMetadata`. -/
structure ExportMetadata where
  exported_at : Int
  tool_version : String
  options : ExportOptions
  warnings : List String
deriving DecidableEq, Repr

/-- `export::ExportedPaper`. -/
structure ExportedPaper where
  schema_version : String
  export_metadata : ExportMetadata
  paper : AcademicPaper
  citations : Option CitationData
  references : Option ReferenceData
  keywords : Option KeywordsData
  research_context : Option ResearchContext
deriving DecidableEq, Repr

namespace ExportedPaper

/-- `ExportedPaper::new` (`EXPORT_SCHEMA_VERSION = "1.0.0"`; the tool
version is the compile-time environment's `CARGO_PKG_VERSION`). -/
def new (o : Oracles) (paper : AcademicPaper) (options : ExportOptions) :
    ExportedPaper :=
  { schema_version := "1.0.0"
    export_metadata :=
      { exported_at := o.chrono.now
        tool_version := o.toolVersion
        options := options
        warnings := [] }
    paper := paper
    citations := none
    references := none
    keywords := none
    research_context := none }

/-- `ExportedPaper::add_warning`. -/
def add_warning (e : ExportedPaper) (warning : String) : ExportedPaper :=
  { e with export_metadata :=
      { e.export_metadata with
        warnings := e.export_metadata.warnings ++ [warning] } }

end ExportedPaper

/-- The arguments of `cmd_export` (output path/format omitted: the
format-specific serializers are outside the embedded core). The CLI
`ProviderArg` is identified with its image under `From<ProviderArg> for
LlmProviderType`. -/
structure ExportArgs where
  arxiv : Option String
  ss : Option String
  title : Option String
  threshold : ℚ
  analyze : Bool
  extract_text : Bool
  include_citations : Bool
  include_references : Bool
  max_citations : Nat
  provider_arg : Option LlmProviderType
  model : Option String
  extract_keywords : Bool

/-- Provider-type resolution in `cmd_export`: the CLI flag wins,
otherwise the `LLM_PROVIDER` environment variable (unknown or missing
values default to OpenAI). -/
def providerTypeOf (args : ExportArgs) (o : Oracles) : LlmProviderType :=
  match args.provider_arg with
  | some p => p
  | none =>
    match o.envLlmProvider with
    | some s =>
      if s = "openai" then .OpenAi
      else if s = "anthropic" then .Anthropic
      else if s = "ollama" then .Ollama
      else .OpenAi
    | none => .OpenAi

/-- The provider name recorded into `ExportOptions::llm_provider`. -/
def providerName : LlmProviderType → String
  | .OpenAi => "openai"
  | .Anthropic => "anthropic"
  | .Ollama => "ollama"

/-- Decimal rendering of a rational with two fractional digits,
approximating Rust's `{:.2}` float formatting (rounding half up rather
than half to even; no claim depends on this text). -/
def fmtRat2 (q : ℚ) : String :=
  let sign := if q < 0 then "-" else ""
  let scaled : Int := ⌊|q| * 100 + 1 / 2⌋
  let ip := scaled / 100
  let fp := scaled % 100
  sign ++ toString ip ++ "." ++ (if fp < 10 then "0" else "") ++ toString fp

/-- `PaperClient::search_by_title_fuzzy`: title search capped at 20
candidates, fuzzy best match, threshold check with a diagnostic message
carrying the best distance and the threshold. The `nth(idx).unwrap()`
panic (unreachable, the index is always valid) is `none`. -/
def search_by_title_fuzzy (o : Oracles) (title : String) (threshold : ℚ) :
    Option (AppResult AcademicPaper) :=
  let params := (SearchParams.new.with_title title).with_max_results 20
  match (PaperClient.search params o).1 with
  | .error e => some (.error e)
  | .ok result =>
    match PaperClient.find_best_match_by_title result.papers title with
    | none => some (.error (.PaperNotFound "No papers found"))
    | some (idx, distance) =>
      if distance > threshold then
        some (.error (.PaperNotFound
          ("No paper found matching '" ++ title ++ "' (best match distance: " ++
            fmtRat2 distance ++ ", threshold: " ++ fmtRat2 threshold ++ ")")))
      else
        match result.papers[idx]? with
        | some p => some (.ok p)
        | none => none

/-- Step 1 of `cmd_export`: resolve the target paper by fuzzy title
search or by direct ID lookup; `anyhow::bail!("Paper not found")` is a
bare-message error. The `into_iter().next().unwrap()` panic (guarded by
the emptiness check) is `none`. -/
def resolvePaper (args : ExportArgs) (o : Oracles) :
    Option (AppResult AcademicPaper) :=
  match args.title with
  | some t => search_by_title_fuzzy o t args.threshold
  | none =>
    let params0 := SearchParams.new
    let params1 :=
      match args.arxiv with
      | some id => { params0 with arxiv_id := some id }
      | none => params0
    let params :=
      match args.ss with
      | some id => { params1 with ss_id := some id }
      | none => params1
    match (PaperClient.search params o).1 with
    | .error e => some (.error e)
    | .ok result =>
      if result.papers.isEmpty then
        some (.error (.InternalAppError "Paper not found"))
      else
        match result.papers with
        | [] => none
        | p :: _ => some (.ok p)

/-- Step 2 of `cmd_export`: optional text extraction; failure becomes a
warning. -/
def textStep (args : ExportArgs) (o : Oracles) (paper : AcademicPaper)
    (exported : ExportedPaper) : AcademicPaper × ExportedPaper :=
  if args.extract_text && !paper.has_extracted_text then
    match (PaperClient.extract_text o paper).1 with
    | .ok p2 => (p2, exported)
    | .error e =>
      (paper, exported.add_warning ("Text extraction failed: " ++ e.display))
  else (paper, exported)

/-- Step 3 of `cmd_export`: optional LLM analysis. Constructing the
provider (`from_env()?`) aborts the whole export on failure; a failing
analysis call only warns; `llm_provider`/`llm_model` are recorded in the
options when the step runs. -/
def analyzeStep (args : ExportArgs) (o : Oracles) (ptype : LlmProviderType)
    (paper : AcademicPaper) (options : ExportOptions) (exported : ExportedPaper) :
    Except AppError (AcademicPaper × ExportOptions × ExportedPaper) :=
  if args.analyze && !paper.is_analyzed then
    match o.fromEnv ptype with
    | .error e => .error e
    | .ok _ =>
      let options1 := { options with llm_provider := some (providerName ptype) }
      let step :=
        match o.analyzeResult with
        | .ok analysis => (paper.set_analysis o.chrono analysis, exported)
        | .error e =>
          (paper, exported.add_warning ("LLM analysis failed: " ++ e.display))
      .ok (step.1, { options1 with llm_model := args.model }, step.2)
  else .ok (paper, options, exported)

/-- Step 4 of `cmd_export`: concurrent citation/reference fetches; each
failure independently warns; a panic in either branch propagates through
the join (`none`). -/
def netStep (args : ExportArgs) (o : Oracles) (paper : AcademicPaper)
    (exported : ExportedPaper) : Option ExportedPaper :=
  let citations_result :=
    if args.include_citations then fetch_citations o paper args.max_citations
    else some (.ok none)
  let references_result :=
    if args.include_references then fetch_references o paper args.max_citations
    else some (.ok none)
  match citations_result, references_result with
  | none, _ => none
  | some _, none => none
  | some cr, some rr =>
    let exported1 :=
      match cr with
      | .ok (some c) => { exported with citations := some c }
      | .ok none => exported
      | .error e => exported.add_warning ("Citations fetch failed: " ++ e.display)
    let exported2 :=
      match rr with
      | .ok (some r) => { exported1 with references := some r }
      | .ok none => exported1
      | .error e =>
        exported1.add_warning ("References fetch failed: " ++ e.display)
    some exported2

/-- Step 5 of `cmd_export`: optional keyword extraction (keyword call
then research-context call, sequential — supplied as one oracle
outcome). Provider construction (`from_env()?`) aborts on failure;
extraction failure warns. -/
def keywordStep (args : ExportArgs) (o : Oracles) (ptype : LlmProviderType)
    (exported : ExportedPaper) : Except AppError ExportedPaper :=
  if args.extract_keywords then
    match o.fromEnv ptype with
    | .error e => .error e
    | .ok _ =>
      match o.keywordsResult with
      | .ok kc =>
        .ok { exported with keywords := some kc.1, research_context := some kc.2 }
      | .error e =>
        .ok (exported.add_warning ("Keyword extraction failed: " ++ e.display))
  else .ok exported

/-- The initial `ExportOptions` built at the top of `cmd_export`. -/
def exportOptionsOf (args : ExportArgs) : ExportOptions :=
  { analyzed := args.analyze
    text_extracted := args.extract_text
    citations_included := args.include_citations
    references_included := args.include_references
    keywords_extracted := args.extract_keywords
    max_citations := args.max_citations
    llm_provider := none
    llm_model := none }

/-- The pipeline of `cmd_export` after the mandatory paper resolution
succeeded: text step, analysis step (may abort), network step (may
panic), keyword step (may abort), then the final record with the mutated
paper and the recorded options. -/
def afterResolve (args : ExportArgs) (o : Oracles) (paper0 : AcademicPaper) :
    Option (Except String ExportedPaper) :=
  let exported0 := ExportedPaper.new o paper0 (exportOptionsOf args)
  let ptype := providerTypeOf args o
  let step1 := textStep args o paper0 exported0
  match analyzeStep args o ptype step1.1 (exportOptionsOf args) step1.2 with
  | .error e => some (.error e.display)
  | .ok st =>
    match netStep args o st.1 st.2.2 with
    | none => none
    | some exported3 =>
      match keywordStep args o ptype exported3 with
      | .error e => some (.error e.display)
      | .ok exported4 =>
        some (.ok { exported4 with
          paper := st.1
          export_metadata :=
            { exported4.export_metadata with options := st.2.1 } })

/-- `main::cmd_export` up to the assembled record (the JSON rendering
and the output write are outside the embedded core, per the spec's
scope). The outer `none` is a panic; `Except.error` is the `anyhow`
error as displayed. -/
def cmd_export (args : ExportArgs) (o : Oracles) :
    Option (Except String ExportedPaper) :=
  if args.arxiv = none ∧ args.ss = none ∧ args.title = none then
    some (.error "Either --arxiv, --ss, or --title is required")
  else
    match resolvePaper args o with
    | none => none
    | some (.error e) => some (.error e.display)
    | some (.ok paper0) => afterResolve args o paper0

/-- The citation branch cannot panic: either the collaborator fails, or
every summary of the truncated prefix constructs without a byte-boundary
panic. -/
def citationsPanicFree (o : Oracles) (max : Nat) : Prop :=
  match o.ssCitations with
  | .error _ => True
  | .ok l => mapPanic PaperSummary.from_academic_paper
      ((l.map (AcademicPaper.from_semantic_scholar o.chrono)).take max) ≠ none

/-- The reference branch cannot panic (same shape). -/
def referencesPanicFree (o : Oracles) (max : Nat) : Prop :=
  match o.ssReferences with
  | .error _ => True
  | .ok l => mapPanic PaperSummary.from_academic_paper
      ((l.map (AcademicPaper.from_semantic_scholar o.chrono)).take max) ≠ none

lemma client_fetch_citations_ok (o : Oracles) (paper : AcademicPaper)
    (citations : List AcademicPaper)
    (h : (PaperClient.fetch_citations o paper).1 = .ok citations) :
    ∃ l, o.ssCitations = .ok l ∧
      citations = l.map (AcademicPaper.from_semantic_scholar o.chrono) := by
  rw [PaperClient.fetch_citations] at h
  cases hid : paper.ssIdResult with
  | error e => rw [hid] at h; exact absurd h (by simp)
  | ok sid =>
    rw [hid] at h
    cases hnet : o.ssCitations with
    | ok l =>
      rw [show SemanticScholarClient.fetch_citations o.ssCitations =
          (.ok l, [.ssNet]) from by
        simp [SemanticScholarClient.fetch_citations, hnet]] at h
      simp only at h
      exact ⟨l, rfl, by injection h with h2; exact h2.symm⟩
    | error e =>
      rw [show SemanticScholarClient.fetch_citations o.ssCitations =
          (.error (.SemanticScholarError ("Fetch citations failed: " ++ e)),
            [.ssNet]) from by
        simp [SemanticScholarClient.fetch_citations, hnet]] at h
      exact absurd h (by simp)

lemma client_fetch_references_ok (o : Oracles) (paper : AcademicPaper)
    (references : List AcademicPaper)
    (h : (PaperClient.fetch_references o paper).1 = .ok references) :
    ∃ l, o.ssReferences = .ok l ∧
      references = l.map (AcademicPaper.from_semantic_scholar o.chrono) := by
  rw [PaperClient.fetch_references] at h
  cases hid : paper.ssIdResult with
  | error e => rw [hid] at h; exact absurd h (by simp)
  | ok sid =>
    rw [hid] at h
    cases hnet : o.ssReferences with
    | ok l =>
      rw [show SemanticScholarClient.fetch_references o.ssReferences =
          (.ok l, [.ssNet]) from by
        simp [SemanticScholarClient.fetch_references, hnet]] at h
      simp only at h
      exact ⟨l, rfl, by injection h with h2; exact h2.symm⟩
    | error e =>
      rw [show SemanticScholarClient.fetch_references o.ssReferences =
          (.error (.SemanticScholarError ("Fetch references failed: " ++ e)),
            [.ssNet]) from by
        simp [SemanticScholarClient.fetch_references, hnet]] at h
      exact absurd h (by simp)

lemma fetch_citations_ne_none (o : Oracles) (paper : AcademicPaper) (max : Nat)
    (h : citationsPanicFree o max) : fetch_citations o paper max ≠ none := by
  rw [fetch_citations]
  cases hc : (PaperClient.fetch_citations o paper).1 with
  | error e => simp
  | ok citations =>
    obtain ⟨l, hnet, rfl⟩ := client_fetch_citations_ok o paper citations hc
    by_cases hemp : ((l.map (AcademicPaper.from_semantic_scholar o.chrono)).take
        max).isEmpty
    · simp [hemp]
    · simp only [hemp, Bool.false_eq_true, if_false]
      rw [citationsPanicFree, hnet] at h
      cases hmp : mapPanic PaperSummary.from_academic_paper
          ((l.map (AcademicPaper.from_semantic_scholar o.chrono)).take max) with
      | none => exact absurd hmp h
      | some s => simp

lemma fetch_references_ne_none (o : Oracles) (paper : AcademicPaper) (max : Nat)
    (h : referencesPanicFree o max) : fetch_references o paper max ≠ none := by
  rw [fetch_references]
  cases hc : (PaperClient.fetch_references o paper).1 with
  | error e => simp
  | ok references =>
    obtain ⟨l, hnet, rfl⟩ := client_fetch_references_ok o paper references hc
    by_cases hemp : ((l.map (AcademicPaper.from_semantic_scholar o.chrono)).take
        max).isEmpty
    · simp [hemp]
    · simp only [hemp, Bool.false_eq_true, if_false]
      rw [referencesPanicFree, hnet] at h
      cases hmp : mapPanic PaperSummary.from_academic_paper
          ((l.map (AcademicPaper.from_semantic_scholar o.chrono)).take max) with
      | none => exact absurd hmp h
      | some s => simp

lemma ssIdResult_congr (p1 p2 : AcademicPaper) (h1 : p1.ss_id = p2.ss_id)
    (h2 : p1.ss_paper = p2.ss_paper) : p1.ssIdResult = p2.ssIdResult := by
  rw [AcademicPaper.ssIdResult, AcademicPaper.ssIdResult, h1, h2]

lemma fetch_citations_congr (o : Oracles) (max : Nat) (p1 p2 : AcademicPaper)
    (h1 : p1.ss_id = p2.ss_id) (h2 : p1.ss_paper = p2.ss_paper)
    (h3 : p1.citations_count = p2.citations_count) :
    fetch_citations o p1 max = fetch_citations o p2 max := by
  have hcl : PaperClient.fetch_citations o p1 = PaperClient.fetch_citations o p2 := by
    rw [PaperClient.fetch_citations, PaperClient.fetch_citations,
      ssIdResult_congr p1 p2 h1 h2]
  rw [fetch_citations, fetch_citations, hcl, h3]

lemma fetch_references_congr (o : Oracles) (max : Nat) (p1 p2 : AcademicPaper)
    (h1 : p1.ss_id = p2.ss_id) (h2 : p1.ss_paper = p2.ss_paper)
    (h3 : p1.references_count = p2.references_count) :
    fetch_references o p1 max = fetch_references o p2 max := by
  have hcl : PaperClient.fetch_references o p1 =
      PaperClient.fetch_references o p2 := by
    rw [PaperClient.fetch_references, PaperClient.fetch_references,
      ssIdResult_congr p1 p2 h1 h2]
  rw [fetch_references, fetch_references, hcl, h3]

lemma add_warning_mem (e : ExportedPaper) (w w2 : String)
    (h : w ∈ e.export_metadata.warnings) :
    w ∈ (e.add_warning w2).export_metadata.warnings := by
  simp only [ExportedPaper.add_warning, List.mem_append]
  exact Or.inl h

lemma add_warning_mem_self (e : ExportedPaper) (w : String) :
    w ∈ (e.add_warning w).export_metadata.warnings := by
  simp [ExportedPaper.add_warning]

lemma textStep_fst_analysis (args : ExportArgs) (o : Oracles)
    (paper : AcademicPaper) (exported : ExportedPaper) :
    (textStep args o paper exported).1.analysis = paper.analysis := by
  rw [textStep]
  by_cases hrun : (args.extract_text && !paper.has_extracted_text) = true
  · rw [if_pos hrun]
    cases hpdf : o.pdfExtract with
    | ok t =>
      simp [PaperClient.extract_text, hpdf, AcademicPaper.set_extracted_text]
    | error e => simp [PaperClient.extract_text, hpdf]
  · rw [if_neg hrun]

lemma textStep_fst_fields (args : ExportArgs) (o : Oracles)
    (paper : AcademicPaper) (exported : ExportedPaper) :
    (textStep args o paper exported).1.ss_id = paper.ss_id
    ∧ (textStep args o paper exported).1.ss_paper = paper.ss_paper
    ∧ (textStep args o paper exported).1.citations_count = paper.citations_count
    ∧ (textStep args o paper exported).1.references_count =
        paper.references_count := by
  rw [textStep]
  by_cases hrun : (args.extract_text && !paper.has_extracted_text) = true
  · rw [if_pos hrun]
    cases hpdf : o.pdfExtract with
    | ok t =>
      simp [PaperClient.extract_text, hpdf, AcademicPaper.set_extracted_text]
    | error e => simp [PaperClient.extract_text, hpdf]
  · rw [if_neg hrun]
    exact ⟨rfl, rfl, rfl, rfl⟩

lemma textStep_warn (args : ExportArgs) (o : Oracles) (paper : AcademicPaper)
    (exported : ExportedPaper) (e : AppError)
    (hreq : args.extract_text = true) (hno : paper.has_extracted_text = false)
    (hpdf : o.pdfExtract = .error e) :
    (textStep args o paper exported).2 =
      exported.add_warning ("Text extraction failed: " ++ e.display) := by
  rw [textStep]
  rw [if_pos (by simp [hreq, hno])]
  simp [PaperClient.extract_text, hpdf]

lemma analyzeStep_error (args : ExportArgs) (o : Oracles)
    (ptype : LlmProviderType) (paper : AcademicPaper) (options : ExportOptions)
    (exported : ExportedPaper) (e : AppError)
    (h : analyzeStep args o ptype paper options exported = .error e) :
    o.fromEnv ptype = .error e := by
  rw [analyzeStep] at h
  by_cases hrun : (args.analyze && !paper.is_analyzed) = true
  · rw [if_pos hrun] at h
    cases hfe : o.fromEnv ptype with
    | error e0 => rw [hfe] at h; injection h with h2; rw [h2]
    | ok u => rw [hfe] at h; exact absurd h (by simp)
  · rw [if_neg hrun] at h
    exact absurd h (by simp)

lemma analyzeStep_ok (args : ExportArgs) (o : Oracles) (ptype : LlmProviderType)
    (paper : AcademicPaper) (options : ExportOptions) (exported : ExportedPaper)
    (hfe : o.fromEnv ptype = .ok ()) :
    ∃ st, analyzeStep args o ptype paper options exported = .ok st
      ∧ (∀ w ∈ exported.export_metadata.warnings,
          w ∈ st.2.2.export_metadata.warnings)
      ∧ (args.analyze = true → paper.is_analyzed = false →
          ∀ ea, o.analyzeResult = .error ea →
            ("LLM analysis failed: " ++ ea.display) ∈
              st.2.2.export_metadata.warnings)
      ∧ (st.1.ss_id = paper.ss_id ∧ st.1.ss_paper = paper.ss_paper
          ∧ st.1.citations_count = paper.citations_count
          ∧ st.1.references_count = paper.references_count) := by
  rw [analyzeStep]
  by_cases hrun : (args.analyze && !paper.is_analyzed) = true
  · rw [if_pos hrun, hfe]
    cases har : o.analyzeResult with
    | ok a =>
      refine ⟨_, rfl, ?_, ?_, rfl, rfl, rfl, rfl⟩
      · intro w hw; exact hw
      · intro _ _ ea hea
        exact absurd hea (by simp)
    | error ea0 =>
      refine ⟨_, rfl, ?_, ?_, rfl, rfl, rfl, rfl⟩
      · intro w hw
        exact add_warning_mem _ _ _ hw
      · intro _ _ ea hea
        have he : ea0 = ea := by injection hea
        rw [← he]
        exact add_warning_mem_self _ _
  · rw [if_neg hrun]
    refine ⟨_, rfl, fun w hw => hw, ?_, rfl, rfl, rfl, rfl⟩
    intro h1 h2 ea _
    exact absurd (by simp [h1, h2]) hrun

lemma netStep_some (args : ExportArgs) (o : Oracles) (paper : AcademicPaper)
    (exported : ExportedPaper)
    (hc : citationsPanicFree o args.max_citations)
    (hr : referencesPanicFree o args.max_citations) :
    ∃ e3, netStep args o paper exported = some e3
      ∧ (∀ w ∈ exported.export_metadata.warnings,
          w ∈ e3.export_metadata.warnings)
      ∧ (args.include_citations = true →
          ∀ ec, fetch_citations o paper args.max_citations = some (.error ec) →
            ("Citations fetch failed: " ++ ec.display) ∈
              e3.export_metadata.warnings)
      ∧ (args.include_references = true →
          ∀ er, fetch_references o paper args.max_citations = some (.error er) →
            ("References fetch failed: " ++ er.display) ∈
              e3.export_metadata.warnings) := by
  rw [netStep]
  have hcs : (if args.include_citations then
      fetch_citations o paper args.max_citations else some (.ok none)) ≠ none := by
    by_cases h : args.include_citations = true
    · rw [if_pos h]; exact fetch_citations_ne_none o paper _ hc
    · rw [if_neg h]; simp
  have hrs : (if args.include_references then
      fetch_references o paper args.max_citations else some (.ok none)) ≠ none := by
    by_cases h : args.include_references = true
    · rw [if_pos h]; exact fetch_references_ne_none o paper _ hr
    · rw [if_neg h]; simp
  obtain ⟨cr, hcr⟩ := Option.ne_none_iff_exists'.mp hcs
  obtain ⟨rr, hrr⟩ := Option.ne_none_iff_exists'.mp hrs
  rw [hcr, hrr]
  have h1 : ∀ (w : String) (e1 : ExportedPaper), w ∈ e1.export_metadata.warnings →
      w ∈ (match rr with
        | .ok (some r) => { e1 with references := some r }
        | .ok none => e1
        | .error e =>
          e1.add_warning ("References fetch failed: " ++ e.display)
        ).export_metadata.warnings := by
    intro w e1 he1
    cases rr with
    | ok orr => cases orr with
      | some r => exact he1
      | none => exact he1
    | error e => exact add_warning_mem _ _ _ he1
  refine ⟨_, rfl, ?_, ?_, ?_⟩
  · intro w hw
    apply h1
    cases cr with
    | ok ocr => cases ocr with
      | some c => exact hw
      | none => exact hw
    | error e => exact add_warning_mem _ _ _ hw
  · intro hinc ec hfc
    rw [if_pos hinc] at hcr
    rw [hfc] at hcr
    have hcre : cr = .error ec := (Option.some.inj hcr).symm
    subst hcre
    exact h1 _ _ (add_warning_mem_self _ _)
  · intro hinr er hfr
    rw [if_pos hinr] at hrr
    rw [hfr] at hrr
    have hrre : rr = .error er := (Option.some.inj hrr).symm
    subst hrre
    exact add_warning_mem_self _ _

lemma keywordStep_error (args : ExportArgs) (o : Oracles)
    (ptype : LlmProviderType) (exported : ExportedPaper) (e : AppError)
    (h : keywordStep args o ptype exported = .error e) :
    o.fromEnv ptype = .error e := by
  rw [keywordStep] at h
  by_cases hrun : args.extract_keywords = true
  · rw [if_pos hrun] at h
    cases hfe : o.fromEnv ptype with
    | error e0 => rw [hfe] at h; injection h with h2; rw [h2]
    | ok u =>
      rw [hfe] at h
      cases hkw : o.keywordsResult with
      | ok kc => rw [hkw] at h; exact absurd h (by simp)
      | error ek => rw [hkw] at h; exact absurd h (by simp)
  · rw [if_neg hrun] at h
    exact absurd h (by simp)

lemma keywordStep_ok (args : ExportArgs) (o : Oracles) (ptype : LlmProviderType)
    (exported : ExportedPaper) (hfe : o.fromEnv ptype = .ok ()) :
    ∃ e4, keywordStep args o ptype exported = .ok e4
      ∧ (∀ w ∈ exported.export_metadata.warnings,
          w ∈ e4.export_metadata.warnings)
      ∧ (args.extract_keywords = true →
          ∀ ek, o.keywordsResult = .error ek →
            ("Keyword extraction failed: " ++ ek.display) ∈
              e4.export_metadata.warnings) := by
  rw [keywordStep]
  by_cases hrun : args.extract_keywords = true
  · rw [if_pos hrun, hfe]
    cases hkw : o.keywordsResult with
    | ok kc =>
      refine ⟨_, rfl, fun w hw => hw, ?_⟩
      intro _ ek hek
      exact absurd hek (by simp)
    | error ek0 =>
      refine ⟨_, rfl, fun w hw => add_warning_mem _ _ _ hw, ?_⟩
      intro _ ek hek
      have he : ek0 = ek := by injection hek
      rw [← he]
      exact add_warning_mem_self _ _
  · rw [if_neg hrun]
    refine ⟨_, rfl, fun w hw => hw, ?_⟩
    intro h1
    exact absurd h1 hrun

lemma resolvePaper_all_none (args : ExportArgs) (o : Oracles)
    (ha : args.arxiv = none) (hs : args.ss = none) (ht : args.title = none) :
    resolvePaper args o =
      some (.error (.PaperNotFound "No papers found matching the search criteria")) := by
  have h1 : (PaperClient.search SearchParams.new o).1 =
      .error (.PaperNotFound "No papers found matching the search criteria") := by
    rw [search_no_criteria SearchParams.new o rfl rfl rfl rfl rfl rfl]
  simp [resolvePaper, ht, ha, hs, h1]

lemma cmd_export_resolved (args : ExportArgs) (o : Oracles) (p : AcademicPaper)
    (hres : resolvePaper args o = some (.ok p)) :
    cmd_export args o = afterResolve args o p := by
  have hguard : ¬(args.arxiv = none ∧ args.ss = none ∧ args.title = none) := by
    rintro ⟨ha, hs, ht⟩
    rw [resolvePaper_all_none args o ha hs ht] at hres
    simp at hres
  rw [cmd_export, if_neg hguard, hres]

/-- Concrete arguments for the C1 counterexample: resolution by a
Semantic Scholar ID, LLM analysis requested, nothing else. -/
def c1args : ExportArgs :=
  { arxiv := none, ss := some "s1", title := none, threshold := 0
    analyze := true, extract_text := false, include_citations := false
    include_references := false, max_citations := 50
    provider_arg := some .OpenAi, model := none, extract_keywords := false }

/-- Concrete oracle for the C1 counterexample: the ID resolves, but the
LLM provider cannot be constructed (`OPENAI_API_KEY` unset). -/
def c1oracle : Oracles :=
  { oracleBase with
    ssFetchDetails := .ok SsPaper.empty
    fromEnv := fun _ =>
      .error (.ConfigError "OPENAI_API_KEY environment variable not set") }

/-- C1 counterexample: the mandatory paper-resolution step succeeds, yet
the whole export fails — the LLM-analysis sub-step's provider
construction (`from_env()?`) propagates its error instead of being
converted to a warning, refuting "the overall export fails only when
paper resolution fails". -/
theorem C1_counterexample :
    resolvePaper c1args c1oracle =
      some (.ok (AcademicPaper.from_semantic_scholar c1oracle.chrono SsPaper.empty))
    ∧ cmd_export c1args c1oracle =
      some (.error "Configuration error: OPENAI_API_KEY environment variable not set") := by
  constructor
  · rfl
  · rfl

/-- C1 (amended): once the mandatory paper-resolution step succeeds, the
failure of each optional sub-step — text extraction, the LLM analysis
*call*, citations fetch, references fetch, keyword extraction — is
caught and converted to its warning string appended to the export
record's warning list and a final record is still produced — with one
exception: constructing the LLM provider from the environment
(`from_env()?` in the analysis and keyword steps) aborts the whole
export on failure. So after successful resolution the export fails
exactly on provider-construction failure (panics aside, see C5). The
citation/reference conditions are stated over the resolved paper: the
intervening steps do not touch the fields those fetches read. -/
theorem C1_amended_warnings_and_provider_abort (args : ExportArgs) (o : Oracles)
    (p : AcademicPaper) (hres : resolvePaper args o = some (.ok p)) :
    (∀ e, cmd_export args o = some (.error e) →
      ∃ e2, o.fromEnv (providerTypeOf args o) = .error e2 ∧ e = e2.display)
    ∧ (o.fromEnv (providerTypeOf args o) = .ok () →
       citationsPanicFree o args.max_citations →
       referencesPanicFree o args.max_citations →
       ∃ rec, cmd_export args o = some (.ok rec)
         ∧ (args.extract_text = true → p.has_extracted_text = false →
            ∀ epdf, o.pdfExtract = .error epdf →
              ("Text extraction failed: " ++ epdf.display) ∈
                rec.export_metadata.warnings)
         ∧ (args.analyze = true → p.is_analyzed = false →
            ∀ ea, o.analyzeResult = .error ea →
              ("LLM analysis failed: " ++ ea.display) ∈
                rec.export_metadata.warnings)
         ∧ (args.include_citations = true →
            ∀ ec, fetch_citations o p args.max_citations = some (.error ec) →
              ("Citations fetch failed: " ++ ec.display) ∈
                rec.export_metadata.warnings)
         ∧ (args.include_references = true →
            ∀ er, fetch_references o p args.max_citations = some (.error er) →
              ("References fetch failed: " ++ er.display) ∈
                rec.export_metadata.warnings)
         ∧ (args.extract_keywords = true →
            ∀ ek, o.keywordsResult = .error ek →
              ("Keyword extraction failed: " ++ ek.display) ∈
                rec.export_metadata.warnings)) := by
  have hcmd := cmd_export_resolved args o p hres
  constructor
  · intro e he
    rw [hcmd] at he
    simp only [afterResolve] at he
    cases han : analyzeStep args o (providerTypeOf args o)
        (textStep args o p (ExportedPaper.new o p (exportOptionsOf args))).1
        (exportOptionsOf args)
        (textStep args o p (ExportedPaper.new o p (exportOptionsOf args))).2 with
    | error e2 =>
      simp only [han, Option.some.injEq, Except.error.injEq] at he
      exact ⟨e2, analyzeStep_error args o _ _ _ _ e2 han, he.symm⟩
    | ok st =>
      simp only [han] at he
      cases hnet : netStep args o st.1 st.2.2 with
      | none =>
        simp only [hnet] at he
        exact absurd he (by simp)
      | some e3 =>
        simp only [hnet] at he
        cases hkw : keywordStep args o (providerTypeOf args o) e3 with
        | error e2 =>
          simp only [hkw, Option.some.injEq, Except.error.injEq] at he
          exact ⟨e2, keywordStep_error args o _ _ e2 hkw, he.symm⟩
        | ok e4 =>
          simp only [hkw] at he
          exact absurd he (by simp)
  · intro hfe hc hr
    obtain ⟨st, han, hmono1, hwarn1, hf1, hf2, hf3, hf4⟩ := analyzeStep_ok args o
      (providerTypeOf args o)
      (textStep args o p (ExportedPaper.new o p (exportOptionsOf args))).1
      (exportOptionsOf args)
      (textStep args o p (ExportedPaper.new o p (exportOptionsOf args))).2 hfe
    obtain ⟨e3, hnet, hmono2, hwcit, hwref⟩ := netStep_some args o st.1 st.2.2
      hc hr
    obtain ⟨e4, hkw, hmono3, hwkw⟩ := keywordStep_ok args o
      (providerTypeOf args o) e3 hfe
    obtain ⟨ht1, ht2, ht3, ht4⟩ := textStep_fst_fields args o p
      (ExportedPaper.new o p (exportOptionsOf args))
    have hfcc : fetch_citations o st.1 args.max_citations =
        fetch_citations o p args.max_citations :=
      fetch_citations_congr o args.max_citations st.1 p
        (hf1.trans ht1) (hf2.trans ht2) (hf3.trans ht3)
    have hfrc : fetch_references o st.1 args.max_citations =
        fetch_references o p args.max_citations :=
      fetch_references_congr o args.max_citations st.1 p
        (hf1.trans ht1) (hf2.trans ht2) (hf4.trans ht4)
    refine ⟨{ e4 with
        paper := st.1
        export_metadata := { e4.export_metadata with options := st.2.1 } },
      ?_, ?_, ?_, ?_, ?_, ?_⟩
    · rw [hcmd]
      simp only [afterResolve, han, hnet, hkw]
    · intro hreq hno epdf hpdf
      have h1 := textStep_warn args o p
        (ExportedPaper.new o p (exportOptionsOf args)) epdf hreq hno hpdf
      have h2 : ("Text extraction failed: " ++ epdf.display) ∈
          (textStep args o p
            (ExportedPaper.new o p (exportOptionsOf args))).2.export_metadata.warnings := by
        rw [h1]
        exact add_warning_mem_self _ _
      exact hmono3 _ (hmono2 _ (hmono1 _ h2))
    · intro h1 h2 ea hea
      have hia : (textStep args o p
          (ExportedPaper.new o p (exportOptionsOf args))).1.is_analyzed =
          p.is_analyzed := by
        simp only [AcademicPaper.is_analyzed, textStep_fst_analysis]
      have h3 := hwarn1 h1 (hia.trans h2) ea hea
      exact hmono3 _ (hmono2 _ h3)
    · intro hinc ec hfc
      have h3 := hwcit hinc ec (hfcc.trans hfc)
      exact hmono3 _ h3
    · intro hinr er hfr
      have h3 := hwref hinr er (hfrc.trans hfr)
      exact hmono3 _ h3
    · intro hkk ek hek
      exact hwkw hkk ek hek

/-- Concrete arguments for the C1 witness: ID resolution plus every
optional step requested. -/
def c1wargs : ExportArgs :=
  { arxiv := none, ss := some "s1", title := none, threshold := 0
    analyze := true, extract_text := true, include_citations := true
    include_references := false, max_citations := 2
    provider_arg := some .OpenAi, model := none, extract_keywords := true }

/-- Concrete oracle for the C1 witness: resolution succeeds, the
provider constructs, one citing paper, and the PDF/LLM calls fail (so
the corresponding warnings are produced). -/
def c1woracle : Oracles :=
  { oracleBase with
    ssFetchDetails := .ok SsPaper.empty
    ssCitations := .ok [SsPaper.empty] }

/-- The paper the C1 witness resolves to. -/
def c1wpaper : AcademicPaper :=
  AcademicPaper.from_semantic_scholar c1woracle.chrono SsPaper.empty

theorem C1_amended_warnings_and_provider_abort_witness :
    (∀ e, cmd_export c1wargs c1woracle = some (.error e) →
      ∃ e2, c1woracle.fromEnv (providerTypeOf c1wargs c1woracle) = .error e2 ∧
        e = e2.display)
    ∧ (c1woracle.fromEnv (providerTypeOf c1wargs c1woracle) = .ok () →
       citationsPanicFree c1woracle c1wargs.max_citations →
       referencesPanicFree c1woracle c1wargs.max_citations →
       ∃ rec, cmd_export c1wargs c1woracle = some (.ok rec)
         ∧ (c1wargs.extract_text = true → c1wpaper.has_extracted_text = false →
            ∀ epdf, c1woracle.pdfExtract = .error epdf →
              ("Text extraction failed: " ++ epdf.display) ∈
                rec.export_metadata.warnings)
         ∧ (c1wargs.analyze = true → c1wpaper.is_analyzed = false →
            ∀ ea, c1woracle.analyzeResult = .error ea →
              ("LLM analysis failed: " ++ ea.display) ∈
                rec.export_metadata.warnings)
         ∧ (c1wargs.include_citations = true →
            ∀ ec, fetch_citations c1woracle c1wpaper c1wargs.max_citations =
                some (.error ec) →
              ("Citations fetch failed: " ++ ec.display) ∈
                rec.export_metadata.warnings)
         ∧ (c1wargs.include_references = true →
            ∀ er, fetch_references c1woracle c1wpaper c1wargs.max_citations =
                some (.error er) →
              ("References fetch failed: " ++ er.display) ∈
                rec.export_metadata.warnings)
         ∧ (c1wargs.extract_keywords = true →
            ∀ ek, c1woracle.keywordsResult = .error ek →
              ("Keyword extraction failed: " ++ ek.display) ∈
                rec.export_metadata.warnings)) :=
  C1_amended_warnings_and_provider_abort c1wargs c1woracle c1wpaper rfl

/-- The spec's dedup example: two records sharing a normalized title
followed by a distinct one. -/
def c8papers : List AcademicPaper :=
  [{ AcademicPaper.defaultPaper with title := "x!" },
   { AcademicPaper.defaultPaper with title := "x" },
   { AcademicPaper.defaultPaper with title := "y" }]

theorem C8_dedup_exact_first_occurrence_order_witness :
    PaperClient.deduplicate_papers c8papers = PaperClient.specKeepFirst [] c8papers
    ∧ (PaperClient.deduplicate_papers c8papers).Sublist c8papers
    ∧ (PaperClient.deduplicate_papers c8papers).Pairwise
        (fun p q => PaperClient.normalize_title p.title ≠ PaperClient.normalize_title q.title)
    ∧ (∀ q : AcademicPaper, q ∈ PaperClient.deduplicate_papers c8papers ↔
        c8papers.find? (fun x => PaperClient.normalize_title x.title ==
          PaperClient.normalize_title q.title) = some q)
    ∧ (∀ t1 t2 : String, PaperClient.titles_match t1 t2 = true ↔ t1 = t2) :=
  C8_dedup_exact_first_occurrence_order c8papers
